import Mathlib

/-! Brain-tumor prediction service (`src/server/server.js`).

A shallow embedding of the Express application of `server.js`: the process-wide
model handle, the `ensureModelLoaded` middleware, the multer upload middleware,
the service functions `loadModel`, `uploadFileToStorage`, `predictUsingModel`,
`storeData`, and the `POST /predict/:id` handler.

Third-party services (TensorFlow, the file system, Cloud Storage, axios,
Firestore, the clock) are black boxes: their answers are read from a `World`
record of functions of the call's arguments.  Every call is appended to a log,
so that statements such as "storeData is not invoked" are statements about the
log of a run.
-/

namespace ExpresMira

/-! ## Values -/

/-- A JavaScript number: a finite value (kept exact), an infinity, or NaN. -/
inductive JSNum where
  | num (q : ℚ)
  | posInf
  | negInf
  | nan
  deriving DecidableEq

/-- The JavaScript comparison `a >= b` on numbers: false as soon as one side is NaN. -/
def JSNum.ge : JSNum → JSNum → Bool
  | .nan, _ => false
  | _, .nan => false
  | .posInf, _ => true
  | _, .negInf => true
  | .negInf, _ => false
  | _, .posInf => false
  | .num a, .num b => decide (b ≤ a)

/-- The literal `0.9` of the handler (lines 144 and 148), kept as the fraction nine tenths.
(The double written `0.9` is the least double that is at least nine tenths, so on doubles
`s >= 0.9` and `9/10 ≤ s` agree.) -/
def threshold : JSNum := .num (mkRat 9 10)

/-- A thrown JavaScript error; `message` is what `error.message` reads (it can be undefined). -/
structure JSError where
  message : Option String
  deriving DecidableEq

/-- The handle returned by `tf.loadLayersModel`. -/
structure LayersModel where
  ref : Nat
  deriving DecidableEq

/-- A byte buffer. -/
abbrev Bytes := List Nat

/-- The file object multer builds for one multipart part (memory storage). -/
structure UploadedFile where
  originalname : String
  mimetype : String
  size : Nat
  buffer : Bytes
  deriving DecidableEq

/-- A file part of a multipart body: the name of its form field and the file. -/
structure Part where
  fieldname : String
  file : UploadedFile
  deriving DecidableEq

/-- An incoming `POST /predict/:id` request: the path parameter and the file parts of the
body, in order (none for a body without files, or one that is not multipart). -/
structure Request where
  id : String
  parts : List Part
  deriving DecidableEq

/-- The file sent in the form field `image` (the first one, if there are several). -/
def Request.image (req : Request) : Option UploadedFile :=
  (req.parts.find? fun p => decide (p.fieldname = "image")).map Part.file

/-- The object literal `response` of the handler (lines 141-153). -/
structure PredictionRecord where
  id : String
  imageUrl : String
  result : String
  explanation : String
  suggestion : String
  confidenceScore : JSNum
  createdAt : String
  deriving DecidableEq

/-- A number as `JSON.stringify` writes it: a finite number as itself, NaN and the
infinities as `null`. -/
inductive JsonNumber where
  | num (q : ℚ)
  | null
  deriving DecidableEq

/-- `JSON.stringify` on a number. -/
def JSNum.toJson : JSNum → JsonNumber
  | .num q => .num q
  | .posInf => .null
  | .negInf => .null
  | .nan => .null

/-- The record as it stands in a JSON body. -/
structure RecordJson where
  id : String
  imageUrl : String
  result : String
  explanation : String
  suggestion : String
  confidenceScore : JsonNumber
  createdAt : String
  deriving DecidableEq

/-- `JSON.stringify` on the record: the strings as they are, the score as
`JSNum.toJson` writes it. -/
def PredictionRecord.toJson (r : PredictionRecord) : RecordJson :=
  { id := r.id
    imageUrl := r.imageUrl
    result := r.result
    explanation := r.explanation
    suggestion := r.suggestion
    confidenceScore := r.confidenceScore.toJson
    createdAt := r.createdAt }

/-- The values that occur in the objects the server hands to `res.json`, numbers and
records already in their JSON form. -/
inductive Json where
  | str (s : String)
  | emptyObject
  | record (r : RecordJson)
  | undefined
  deriving DecidableEq

/-- What `res.json` / `res.send` writes. -/
inductive Body where
  | json (fields : List (String × Json))
  | html (text : String)
  deriving DecidableEq

/-- The serialisation done by `res.json` on an object whose values are in JSON form: the
keys with an undefined value are left out. (Numbers are put in JSON form by
`JSNum.toJson`, where a value that is not finite becomes `null`.) -/
def jsonBody (fields : List (String × Json)) : Body :=
  .json (fields.filter fun kv => decide (kv.2 ≠ Json.undefined))

/-- The keys of a JSON body, in order. -/
def Body.keys : Body → List String
  | .json fields => fields.map Prod.fst
  | .html _ => []

/-- The value stored under a key of a JSON body. -/
def Body.field (b : Body) (k : String) : Option Json :=
  match b with
  | .json fields => fields.lookup k
  | .html _ => none

/-- `error.message` as a JSON value. -/
def JSError.messageJson (e : JSError) : Json :=
  match e.message with
  | some m => .str m
  | none => .undefined

/-! ## Configuration, third-party services and the log -/

/-- The environment variables and module constants the server reads. -/
structure Config where
  modelUrl : String
  bucketName : String
  dirname : String

/-- The calls a run can make: the four service functions of `server.js`, then the
third-party operations they are built from. -/
inductive Call where
  | loadModel
  | uploadFileToStorage (originalname destination : String)
  | predictUsingModel (imageUrl : String)
  | storeData (id : String) (data : PredictionRecord)
  | tfLoadLayersModel (url : String)
  | fsWriteFileSync (path : String)
  | bucketUpload (path destination : String)
  | fsUnlinkSync (path : String)
  | axiosGet (url : String)
  | tfDecodeImage
  | modelPredict
  | firestoreSet (collection doc : String) (data : PredictionRecord)
  deriving DecidableEq

/-- What a service function of `server.js` hands back to its caller. -/
inductive Value where
  | unit
  | url (u : String)
  | score (s : JSNum)
  deriving DecidableEq

/-- One entry of the log of a run. `call` is written when a call is issued (service function
or third-party operation); `returned` and `threw` are written when one of the four service
functions of `server.js` finishes; `respond` is written when a response is sent. -/
inductive Event where
  | call (c : Call)
  | returned (c : Call) (v : Value)
  | threw (c : Call) (e : JSError)
  | respond (status : Nat) (body : Body)
  deriving DecidableEq

/-- The answers of the third-party services, as functions of the arguments of the call. -/
structure World where
  loadLayersModel : String → Except JSError LayersModel
  writeFileSync : String → Bytes → Except JSError Unit
  bucketUpload : String → String → Except JSError Unit
  unlinkSync : String → Except JSError Unit
  axiosGet : String → Except JSError Bytes
  decodeImage : Bytes → Except JSError Bytes
  predict : LayersModel → Bytes → Except JSError JSNum
  firestoreSet : String → String → PredictionRecord → Except JSError Unit
  now : String

/-- The state a request runs in: the module variable `model`, the objects of the bucket
(by destination key), the documents of the Firestore collection (by document id), and
the log. -/
structure ServerState where
  model : Option LayersModel
  blobs : List (String × Bytes)
  docs : List (String × PredictionRecord)
  log : List Event

/-- Append entries to the log. -/
def ServerState.emit (s : ServerState) (es : List Event) : ServerState :=
  { s with log := s.log ++ es }

/-- Write (or overwrite) the value stored under a key. -/
def upsert {α : Type} (k : String) (v : α) (kvs : List (String × α)) : List (String × α) :=
  (k, v) :: kvs.filter fun kv => decide (kv.1 ≠ k)

/-- The state of a process that has served nothing yet. -/
def ServerState.init : ServerState :=
  { model := none, blobs := [], docs := [], log := [] }

/-! ## The model handle (lines 31-61) -/

/-- `loadModel` up to its `await` (line 36): the function is entered and
`tf.loadLayersModel(process.env.MODEL_URL)` is called. -/
def loadModelBegin (cfg : Config) (s : ServerState) : ServerState :=
  s.emit [.call .loadModel, .call (.tfLoadLayersModel cfg.modelUrl)]

/-- `loadModel` from its `await` on, once the promise of `tf.loadLayersModel` has settled
with `r`: the assignment to `model` happens only when the promise is fulfilled; a rejection
is logged and thrown again. -/
def loadModelResume (r : Except JSError LayersModel) (s : ServerState) :
    Except JSError Unit × ServerState :=
  match r with
  | .ok m => (.ok (), ({ s with model := some m }).emit [.returned .loadModel .unit])
  | .error e => (.error e, s.emit [.threw .loadModel e])

/-- `loadModel` run without interruption. -/
def loadModel (cfg : Config) (w : World) (s : ServerState) : Except JSError Unit × ServerState :=
  loadModelResume (w.loadLayersModel cfg.modelUrl) (loadModelBegin cfg s)

/-- Whether a middleware called `next()` or ended the request itself. -/
inductive Next where
  | next
  | ended
  deriving DecidableEq

/-- The body `ensureModelLoaded` sends when the load fails (lines 52-56). -/
def modelNotLoadedBody : Body :=
  jsonBody [("status", .str "fail"),
    ("message", .str "Model not loaded. Please try again later."),
    ("data", .emptyObject)]

/-- `ensureModelLoaded` from the `await loadModel()` of line 48 on. -/
def ensureModelLoadedResume (r : Except JSError LayersModel) (s : ServerState) :
    Next × ServerState :=
  match loadModelResume r s with
  | (.ok _, s1) => (.next, s1)
  | (.error _, s1) => (.ended, s1.emit [.respond 500 modelNotLoadedBody])

/-- `ensureModelLoaded` (lines 45-61), run without interruption. -/
def ensureModelLoaded (cfg : Config) (w : World) (s : ServerState) : Next × ServerState :=
  match s.model with
  | none => ensureModelLoadedResume (w.loadLayersModel cfg.modelUrl) (loadModelBegin cfg s)
  | some _ => (.next, s)

/-! ## The upload middleware (lines 63-76)

multer and Express are libraries; what is embedded here is the configuration `server.js`
gives them, and their documented behaviour on it: multer hands the error of `fileFilter`,
or its own `LIMIT_UNEXPECTED_FILE` or `LIMIT_FILE_SIZE` error, to `next(err)`, and an
Express application without an error-handling middleware answers such an error with its
default handler. -/

/-- `limits.fileSize` (line 67). -/
def fileSizeLimit : Nat := 5 * 1024 * 1024

/-- JavaScript `s.startsWith(p)`. -/
def startsWith (s p : String) : Bool := p.data.isPrefixOf s.data

/-- `fileFilter` (lines 69-75): `cb(null, true)` for a MIME type that starts with
`image/`, `cb(new Error(...))` otherwise. -/
def fileFilter (file : UploadedFile) : Except JSError Bool :=
  if startsWith file.mimetype "image/" then .ok true
  else .error { message := some "File must be an image." }

/-- The loop multer runs over the file parts for `single("image")`. `left` is the number
of files the field `image` may still take (one at the start), `kept` the file stored for
`req.file` so far. A part in another field, or one more part in `image`, is refused with
`LIMIT_UNEXPECTED_FILE`; next `fileFilter` is asked, on the headers of the part; next the
part is read, up to the size limit (a file above the limit is refused by every multer
version; whether a file of exactly the limit is refused depends on the version, which
`src/` does not pin, and it is let through here). The first error ends the loop. -/
def multerSingle : List Part → Nat → Option UploadedFile → Except JSError (Option UploadedFile)
  | [], _, kept => .ok kept
  | p :: ps, left, kept =>
    if p.fieldname ≠ "image" ∨ left = 0 then .error { message := some "Unexpected field" }
    else
      match fileFilter p.file with
      | .error e => .error e
      | .ok false => multerSingle ps (left - 1) kept
      | .ok true =>
        if p.file.size > fileSizeLimit then .error { message := some "File too large" }
        else multerSingle ps (left - 1) (some p.file)

/-- `upload.single("image")`: the value it leaves in `req.file`, or the error it passes
to `next`. -/
def uploadSingle (req : Request) : Except JSError (Option UploadedFile) :=
  multerSingle req.parts 1 none

/-- The default error handler of Express: the error carries no `status`, so the status
is 500; the body is an HTML page (kept here as the message it reports). -/
def defaultErrorHandler (e : JSError) (s : ServerState) : ServerState :=
  s.emit [.respond 500 (.html (e.message.getD ""))]

/-! ## The service functions (lines 78-114) -/

/-- `storeData` (lines 79-82): `set` on the document `String(id)` of the collection
`predictions`. (`src/services/storeData.js` exports a function of the same name that
writes to a collection `prediction`; `server.js` does not import it.) -/
def storeData (w : World) (id : String) (data : PredictionRecord) (s : ServerState) :
    Except JSError Unit × ServerState :=
  let c := Call.storeData id data
  let s1 := s.emit [.call c, .call (.firestoreSet "predictions" id data)]
  match w.firestoreSet "predictions" id data with
  | .error e => (.error e, s1.emit [.threw c e])
  | .ok _ => (.ok (), ({ s1 with docs := upsert id data s1.docs }).emit [.returned c .unit])

/-- The temporary path of line 86, `path.join(__dirname, "temp/" + file.originalname)`. -/
def tempPath (cfg : Config) (file : UploadedFile) : String :=
  cfg.dirname ++ "/temp/" ++ file.originalname

/-- The public URL of line 93 for a destination key. -/
def publicUrl (cfg : Config) (destination : String) : String :=
  "https://storage.googleapis.com/" ++ cfg.bucketName ++ "/" ++ destination

/-- `uploadFileToStorage` (lines 85-99): write the buffer to a temporary file, upload that
file to the bucket under `destination`, remove the temporary file, return the public URL. Any
failure inside the `try` is logged and thrown again. -/
def uploadFileToStorage (cfg : Config) (w : World) (file : UploadedFile) (destination : String)
    (s : ServerState) : Except JSError String × ServerState :=
  let c := Call.uploadFileToStorage file.originalname destination
  let filePath := tempPath cfg file
  let s1 := s.emit [.call c, .call (.fsWriteFileSync filePath)]
  match w.writeFileSync filePath file.buffer with
  | .error e => (.error e, s1.emit [.threw c e])
  | .ok _ =>
    let s2 := s1.emit [.call (.bucketUpload filePath destination)]
    match w.bucketUpload filePath destination with
    | .error e => (.error e, s2.emit [.threw c e])
    | .ok _ =>
      let s3 := ({ s2 with blobs := upsert destination file.buffer s2.blobs }).emit
        [.call (.fsUnlinkSync filePath)]
      match w.unlinkSync filePath with
      | .error e => (.error e, s3.emit [.threw c e])
      | .ok _ =>
        let url := publicUrl cfg destination
        (.ok url, s3.emit [.returned c (.url url)])

/-- `predictUsingModel` (lines 102-114): fetch the image, decode and resize it
(`World.decodeImage` stands for lines 106-110), run `model.predict` and read the first
entry of the output (`World.predict` stands for lines 111-112). Reading `.predict` of an
undefined `model` throws a TypeError. -/
def predictUsingModel (w : World) (imageUrl : String) (s : ServerState) :
    Except JSError JSNum × ServerState :=
  let c := Call.predictUsingModel imageUrl
  let s1 := s.emit [.call c, .call (.axiosGet imageUrl)]
  match w.axiosGet imageUrl with
  | .error e => (.error e, s1.emit [.threw c e])
  | .ok data =>
    let s2 := s1.emit [.call .tfDecodeImage]
    match w.decodeImage data with
    | .error e => (.error e, s2.emit [.threw c e])
    | .ok imageData =>
      match s2.model with
      | none =>
        let e : JSError :=
          { message := some "Cannot read properties of undefined (reading 'predict')" }
        (.error e, s2.emit [.threw c e])
      | some m =>
        let s3 := s2.emit [.call .modelPredict]
        match w.predict m imageData with
        | .error e => (.error e, s3.emit [.threw c e])
        | .ok score => (.ok score, s3.emit [.returned c (.score score)])

/-! ## The route `POST /predict/:id` (lines 117-173) -/

/-- The text of `explanation` (line 146). -/
def explanationText : String :=
  "Brain tumor is a condition where there is abnormal tissue growth inside the brain."

/-- The suggestion for a score at or above the threshold (line 149). -/
def consultText : String :=
  "Consult with the nearest doctor immediately to determine the level of disease risk."

/-- The suggestion for a score below the threshold (line 150). -/
def healthyText : String := "You are healthy!"

/-- The object `response` built at lines 141-153. -/
def buildResponse (id imageUrl : String) (score : JSNum) (createdAt : String) :
    PredictionRecord :=
  { id := id
    imageUrl := imageUrl
    result := if score.ge threshold then "Positive" else "Negative"
    explanation := explanationText
    suggestion := if score.ge threshold then consultText else healthyText
    confidenceScore := score
    createdAt := createdAt }

/-- The body sent when no file reached the handler (line 127). -/
def noFileBody : Body :=
  jsonBody [("status", .str "fail"), ("message", .str "No file uploaded.")]

/-- The body sent by the `catch` of the handler (lines 166-170). -/
def predictionFailedBody (e : JSError) : Body :=
  jsonBody [("status", .str "fail"), ("message", .str "Prediction failed"),
    ("error", e.messageJson)]

/-- The body sent on success (lines 159-163): `data` is the record, serialised. -/
def successBody (data : PredictionRecord) : Body :=
  jsonBody [("status", .str "success"), ("message", .str "Prediction successful"),
    ("data", .record data.toJson)]

/-- The destination key the handler passes to `uploadFileToStorage` (line 133). -/
def destination (file : UploadedFile) : String := "images/" ++ file.originalname

/-- The last function of the route (lines 121-172); `file` is `req.file`. -/
def predictHandler (cfg : Config) (w : World) (req : Request) (file : Option UploadedFile)
    (s : ServerState) : ServerState :=
  match file with
  | none => s.emit [.respond 400 noFileBody]
  | some f =>
    match uploadFileToStorage cfg w f (destination f) s with
    | (.error e, s1) => s1.emit [.respond 500 (predictionFailedBody e)]
    | (.ok imageUrl, s1) =>
      match predictUsingModel w imageUrl s1 with
      | (.error e, s2) => s2.emit [.respond 500 (predictionFailedBody e)]
      | (.ok score, s2) =>
        let response := buildResponse req.id imageUrl score w.now
        match storeData w req.id response s2 with
        | (.error e, s3) => s3.emit [.respond 500 (predictionFailedBody e)]
        | (.ok _, s3) => s3.emit [.respond 200 (successBody response)]

/-- The route: `ensureModelLoaded`, then `upload.single("image")`, then the handler, each
reached only when the one before called `next()` without an error. -/
def postPredict (cfg : Config) (w : World) (req : Request) (s : ServerState) : ServerState :=
  match ensureModelLoaded cfg w s with
  | (.ended, s1) => s1
  | (.next, s1) =>
    match uploadSingle req with
    | .error e => defaultErrorHandler e s1
    | .ok file => predictHandler cfg w req file s1

/-- One request served from state `s`, with a log of its own. -/
def serve (cfg : Config) (w : World) (req : Request) (s : ServerState) : ServerState :=
  postPredict cfg w req { s with log := [] }

/-- The log of one request served from state `s`. -/
def trace (cfg : Config) (w : World) (req : Request) (s : ServerState) : List Event :=
  (serve cfg w req s).log

/-! ## Reading a log -/

/-- The four service functions of `server.js`, as opposed to third-party operations. -/
def Call.isService : Call → Bool
  | .loadModel => true
  | .uploadFileToStorage _ _ => true
  | .predictUsingModel _ => true
  | .storeData _ _ => true
  | _ => false

/-- The third-party calls of a log, in order. -/
def externalCalls : List Event → List Call
  | [] => []
  | .call c :: es => if c.isService then externalCalls es else c :: externalCalls es
  | _ :: es => externalCalls es

/-- The responses of a log, in order. -/
def responses : List Event → List (Nat × Body)
  | [] => []
  | .respond st b :: es => (st, b) :: responses es
  | _ :: es => responses es

/-- The entries of a log that come before its first response. -/
def beforeResponse : List Event → List Event
  | [] => []
  | .respond _ _ :: _ => []
  | e :: es => e :: beforeResponse es

/-! ## Model loads on the event loop (lines 31-61 and 181-184)

Node runs one callback at a time and switches between them at an `await`. The only
`await` of the loading code is the one of line 36, so a run is cut into the pieces
`loadModelBegin` (up to the `await`) and `loadModelResume` / `ensureModelLoadedResume`
(after it), and a schedule says in which order the pieces run. The resumption of
`loadModel` and that of the `ensureModelLoaded` awaiting it are taken as one piece: only
other resumptions can run between the two, and `ensureModelLoaded` reads nothing they
write. -/

/-- Who waits for a `tf.loadLayersModel` promise: the `app.listen` callback (line 183) or
the `ensureModelLoaded` of a request. -/
inductive Caller where
  | startup
  | request (id : String)
  deriving DecidableEq

/-- The process between two callbacks: the server state, the callers suspended at
line 36 (oldest first), the requests for which `next()` was called and the requests
answered with the 500 of lines 52-56. -/
structure EventLoop where
  srv : ServerState
  waiting : List Caller
  passed : List String
  refused : List String

/-- What the event loop runs next. -/
inductive Tick where
  | listen
  | arrive (id : String)
  | settle (i : Nat) (r : Except JSError LayersModel)

/-- The caller a tick brings in, if it brings one. -/
def Tick.caller : Tick → Option Caller
  | .listen => some .startup
  | .arrive id => some (.request id)
  | .settle _ _ => none

/-- One callback. `listen`: the `app.listen` callback calls `loadModel()` without looking
at `model`. `arrive id`: `ensureModelLoaded` runs for a request up to its first `await`,
or to its `next()` when `model` is set. `settle i r`: the promise the `i`-th waiting
caller awaits settles with `r`, and that caller runs on from line 36. -/
def EventLoop.step (cfg : Config) (l : EventLoop) : Tick → EventLoop
  | .listen =>
    { l with srv := loadModelBegin cfg l.srv, waiting := l.waiting ++ [.startup] }
  | .arrive id =>
    match l.srv.model with
    | some _ => { l with passed := l.passed ++ [id] }
    | none =>
      { l with srv := loadModelBegin cfg l.srv, waiting := l.waiting ++ [.request id] }
  | .settle i r =>
    match l.waiting[i]? with
    | none => l
    | some .startup =>
      { l with srv := (loadModelResume r l.srv).2, waiting := l.waiting.eraseIdx i }
    | some (.request id) =>
      match ensureModelLoadedResume r l.srv with
      | (.next, s1) =>
        { l with srv := s1, waiting := l.waiting.eraseIdx i, passed := l.passed ++ [id] }
      | (.ended, s1) =>
        { l with srv := s1, waiting := l.waiting.eraseIdx i, refused := l.refused ++ [id] }

/-- A schedule, run from a state of the loop. -/
def EventLoop.run (cfg : Config) (l : EventLoop) (ts : List Tick) : EventLoop :=
  ts.foldl (EventLoop.step cfg) l

/-- The process right after start, before any callback. -/
def EventLoop.boot : EventLoop :=
  { srv := .init, waiting := [], passed := [], refused := [] }

/-! ## Sample inputs -/

/-- A sample configuration. -/
def sampleConfig : Config :=
  { modelUrl := "https://models.example/model.json", bucketName := "mira-bucket",
    dirname := "/app/server" }

/-- A world in which every service answers. -/
def goodWorld (score : JSNum) : World :=
  { loadLayersModel := fun _ => .ok { ref := 1 }
    writeFileSync := fun _ _ => .ok ()
    bucketUpload := fun _ _ => .ok ()
    unlinkSync := fun _ => .ok ()
    axiosGet := fun _ => .ok [255, 216]
    decodeImage := fun b => .ok b
    predict := fun _ _ => .ok score
    firestoreSet := fun _ _ _ => .ok ()
    now := "2024-06-01T00:00:00.000Z" }

/-- A sample JPEG upload. -/
def sampleJpeg : UploadedFile :=
  { originalname := "scan.jpg", mimetype := "image/jpeg", size := 10240, buffer := [255, 216] }

/-- A request with the sample JPEG. -/
def sampleRequest : Request :=
  { id := "abc123", parts := [{ fieldname := "image", file := sampleJpeg }] }

/-- The sample JPEG sent under another id. -/
def otherRequest : Request :=
  { id := "xyz789", parts := [{ fieldname := "image", file := sampleJpeg }] }

/-- A request without any file. -/
def emptyRequest : Request := { id := "abc123", parts := [] }

/-- A plain-text file. -/
def sampleText : UploadedFile :=
  { originalname := "notes.txt", mimetype := "text/plain", size := 12, buffer := [104, 105] }

/-- An image of 5 MiB and one byte. -/
def sampleLarge : UploadedFile :=
  { originalname := "big.png", mimetype := "image/png", size := 5242881, buffer := [137, 80] }

/-- A request whose file is plain text. -/
def textRequest : Request :=
  { id := "abc123", parts := [{ fieldname := "image", file := sampleText }] }

/-- A request whose file is an image of 5 MiB and one byte. -/
def largeRequest : Request :=
  { id := "abc123", parts := [{ fieldname := "image", file := sampleLarge }] }

/-- A state in which the model handle exists. -/
def loadedState : ServerState :=
  { model := some { ref := 1 }, blobs := [], docs := [], log := [] }

/-- A world in which the model cannot be fetched. -/
def modelDownWorld : World :=
  { goodWorld threshold with
    loadLayersModel := fun _ => .error { message := some "Request failed" } }

/-- A world in which the bucket refuses the upload. -/
def bucketDownWorld : World :=
  { goodWorld threshold with
    bucketUpload := fun _ _ => .error { message := some "Forbidden" } }

/-- A world in which the uploaded image cannot be decoded. -/
def decodeDownWorld : World :=
  { goodWorld threshold with
    decodeImage := fun _ => .error { message := some "Expected image" } }

/-- A world in which the Firestore write is refused. -/
def storeDownWorld : World :=
  { goodWorld threshold with
    firestoreSet := fun _ _ _ => .error { message := some "UNAVAILABLE" } }

/-! ## Predicates on requests and logs -/

/-- The upload fails validation: no file in the field `image`, a MIME type that does not
start with `image/`, or more than 5 MiB. -/
def Request.Invalid (req : Request) : Prop :=
  req.image = none ∨
    ∃ f, req.image = some f ∧ (startsWith f.mimetype "image/" = false ∨ f.size > fileSizeLimit)

/-- The model handle the request will run with is `m`: it exists already, or it does not
and `tf.loadLayersModel` answers with `m`. -/
def Ready (cfg : Config) (w : World) (s : ServerState) (m : LayersModel) : Prop :=
  s.model = some m ∨ (s.model = none ∧ w.loadLayersModel cfg.modelUrl = .ok m)

/-- The three steps of `uploadFileToStorage` succeed for the file: the temporary file is
written, the bucket takes the upload, the temporary file is removed. -/
def Uploads (cfg : Config) (w : World) (file : UploadedFile) : Prop :=
  w.writeFileSync (cfg.dirname ++ "/temp/" ++ file.originalname) file.buffer = .ok () ∧
    w.bucketUpload (cfg.dirname ++ "/temp/" ++ file.originalname)
      ("images/" ++ file.originalname) = .ok () ∧
    w.unlinkSync (cfg.dirname ++ "/temp/" ++ file.originalname) = .ok ()

/-- The steps of `predictUsingModel` succeed for the file under the handle `m`, with the
score `sc`: the image is fetched from its public URL, decoded, and scored. -/
def Scores (cfg : Config) (w : World) (file : UploadedFile) (m : LayersModel) (sc : JSNum) :
    Prop :=
  ∃ data img,
    w.axiosGet ("https://storage.googleapis.com/" ++ cfg.bucketName ++ "/" ++
      ("images/" ++ file.originalname)) = .ok data ∧
    w.decodeImage data = .ok img ∧ w.predict m img = .ok sc

/-- The name of the function or operation a call entry stands for. -/
def Call.name : Call → String
  | .loadModel => "loadModel"
  | .uploadFileToStorage _ _ => "uploadFileToStorage"
  | .predictUsingModel _ => "predictUsingModel"
  | .storeData _ _ => "storeData"
  | .tfLoadLayersModel _ => "tf.loadLayersModel"
  | .fsWriteFileSync _ => "fs.writeFileSync"
  | .bucketUpload _ _ => "bucket.upload"
  | .fsUnlinkSync _ => "fs.unlinkSync"
  | .axiosGet _ => "axios.get"
  | .tfDecodeImage => "tf.node.decodeImage"
  | .modelPredict => "model.predict"
  | .firestoreSet _ _ _ => "doc.set"

/-- The names of the calls of a log, in order, one entry per call. -/
def callNames : List Event → List String
  | [] => []
  | .call c :: es => c.name :: callNames es
  | _ :: es => callNames es

/-- The number of calls to `tf.loadLayersModel` in a log. -/
def loadCalls : List Event → Nat
  | [] => 0
  | .call (.tfLoadLayersModel _) :: es => loadCalls es + 1
  | _ :: es => loadCalls es

/-! ## The runs of the route, path by path

`Served cfg w req s s'` lists the ways a request can go, one rule per path through the
route, with the answers of the services that select the path and the state `s'` it ends
in. `serve_served` shows that `serve` always follows one of the rules. -/

/-- The entries `ensureModelLoaded` writes before calling `next()`, and the handle the rest of
the route sees. -/
inductive Loaded (cfg : Config) (w : World) (s : ServerState) : LayersModel → List Event → Prop
  | present (m : LayersModel) (hm : s.model = some m) : Loaded cfg w s m []
  | fresh (m : LayersModel) (hm : s.model = none)
      (hl : w.loadLayersModel cfg.modelUrl = .ok m) :
      Loaded cfg w s m [.call .loadModel, .call (.tfLoadLayersModel cfg.modelUrl),
        .returned .loadModel .unit]

/-- The file passes `upload.single("image")` and becomes `req.file`. -/
def Accepted (req : Request) (f : UploadedFile) : Prop :=
  uploadSingle req = .ok (some f)

/-- The call entry of `uploadFileToStorage` as the handler issues it. -/
def uploadCall (f : UploadedFile) : Call := .uploadFileToStorage f.originalname (destination f)

/-- The URL the handler gets for a file. -/
def imageUrlOf (cfg : Config) (f : UploadedFile) : String := publicUrl cfg (destination f)

/-- The entries of a complete `uploadFileToStorage`. -/
def uploadLog (cfg : Config) (f : UploadedFile) : List Event :=
  [.call (uploadCall f), .call (.fsWriteFileSync (tempPath cfg f)),
    .call (.bucketUpload (tempPath cfg f) (destination f)),
    .call (.fsUnlinkSync (tempPath cfg f)),
    .returned (uploadCall f) (.url (imageUrlOf cfg f))]

/-- The entries of a complete `predictUsingModel`. -/
def predictLog (url : String) (score : JSNum) : List Event :=
  [.call (.predictUsingModel url), .call (.axiosGet url), .call .tfDecodeImage,
    .call .modelPredict, .returned (.predictUsingModel url) (.score score)]

/-- The record the handler builds for a file and a score. -/
def recordOf (cfg : Config) (w : World) (req : Request) (f : UploadedFile) (score : JSNum) :
    PredictionRecord :=
  buildResponse req.id (imageUrlOf cfg f) score w.now

/-- The paths of `POST /predict/:id`. -/
inductive Served (cfg : Config) (w : World) (req : Request) (s : ServerState) :
    ServerState → Prop
  | loadFailed (e : JSError) (hm : s.model = none)
      (hl : w.loadLayersModel cfg.modelUrl = .error e) :
      Served cfg w req s
        { model := none, blobs := s.blobs, docs := s.docs,
          log := [.call .loadModel, .call (.tfLoadLayersModel cfg.modelUrl),
            .threw .loadModel e, .respond 500 modelNotLoadedBody] }
  | noFile (m : LayersModel) (pre : List Event) (hpre : Loaded cfg w s m pre)
      (hu : uploadSingle req = .ok none) :
      Served cfg w req s
        { model := some m, blobs := s.blobs, docs := s.docs,
          log := pre ++ [.respond 400 noFileBody] }
  | rejected (m : LayersModel) (pre : List Event) (hpre : Loaded cfg w s m pre)
      (e : JSError) (hu : uploadSingle req = .error e) :
      Served cfg w req s
        { model := some m, blobs := s.blobs, docs := s.docs,
          log := pre ++ [.respond 500 (.html (e.message.getD ""))] }
  | writeFailed (m : LayersModel) (pre : List Event) (hpre : Loaded cfg w s m pre)
      (f : UploadedFile) (hf : Accepted req f) (e : JSError)
      (h1 : w.writeFileSync (tempPath cfg f) f.buffer = .error e) :
      Served cfg w req s
        { model := some m, blobs := s.blobs, docs := s.docs,
          log := pre ++ [.call (uploadCall f), .call (.fsWriteFileSync (tempPath cfg f)),
            .threw (uploadCall f) e, .respond 500 (predictionFailedBody e)] }
  | bucketFailed (m : LayersModel) (pre : List Event) (hpre : Loaded cfg w s m pre)
      (f : UploadedFile) (hf : Accepted req f) (e : JSError)
      (h1 : w.writeFileSync (tempPath cfg f) f.buffer = .ok ())
      (h2 : w.bucketUpload (tempPath cfg f) (destination f) = .error e) :
      Served cfg w req s
        { model := some m, blobs := s.blobs, docs := s.docs,
          log := pre ++ [.call (uploadCall f), .call (.fsWriteFileSync (tempPath cfg f)),
            .call (.bucketUpload (tempPath cfg f) (destination f)),
            .threw (uploadCall f) e, .respond 500 (predictionFailedBody e)] }
  | unlinkFailed (m : LayersModel) (pre : List Event) (hpre : Loaded cfg w s m pre)
      (f : UploadedFile) (hf : Accepted req f) (e : JSError)
      (h1 : w.writeFileSync (tempPath cfg f) f.buffer = .ok ())
      (h2 : w.bucketUpload (tempPath cfg f) (destination f) = .ok ())
      (h3 : w.unlinkSync (tempPath cfg f) = .error e) :
      Served cfg w req s
        { model := some m, blobs := upsert (destination f) f.buffer s.blobs, docs := s.docs,
          log := pre ++ [.call (uploadCall f), .call (.fsWriteFileSync (tempPath cfg f)),
            .call (.bucketUpload (tempPath cfg f) (destination f)),
            .call (.fsUnlinkSync (tempPath cfg f)),
            .threw (uploadCall f) e, .respond 500 (predictionFailedBody e)] }
  | fetchFailed (m : LayersModel) (pre : List Event) (hpre : Loaded cfg w s m pre)
      (f : UploadedFile) (hf : Accepted req f) (e : JSError)
      (h1 : w.writeFileSync (tempPath cfg f) f.buffer = .ok ())
      (h2 : w.bucketUpload (tempPath cfg f) (destination f) = .ok ())
      (h3 : w.unlinkSync (tempPath cfg f) = .ok ())
      (h4 : w.axiosGet (imageUrlOf cfg f) = .error e) :
      Served cfg w req s
        { model := some m, blobs := upsert (destination f) f.buffer s.blobs, docs := s.docs,
          log := pre ++ uploadLog cfg f ++
            [.call (.predictUsingModel (imageUrlOf cfg f)), .call (.axiosGet (imageUrlOf cfg f)),
              .threw (.predictUsingModel (imageUrlOf cfg f)) e,
              .respond 500 (predictionFailedBody e)] }
  | decodeFailed (m : LayersModel) (pre : List Event) (hpre : Loaded cfg w s m pre)
      (f : UploadedFile) (hf : Accepted req f) (data : Bytes) (e : JSError)
      (h1 : w.writeFileSync (tempPath cfg f) f.buffer = .ok ())
      (h2 : w.bucketUpload (tempPath cfg f) (destination f) = .ok ())
      (h3 : w.unlinkSync (tempPath cfg f) = .ok ())
      (h4 : w.axiosGet (imageUrlOf cfg f) = .ok data)
      (h5 : w.decodeImage data = .error e) :
      Served cfg w req s
        { model := some m, blobs := upsert (destination f) f.buffer s.blobs, docs := s.docs,
          log := pre ++ uploadLog cfg f ++
            [.call (.predictUsingModel (imageUrlOf cfg f)), .call (.axiosGet (imageUrlOf cfg f)),
              .call .tfDecodeImage,
              .threw (.predictUsingModel (imageUrlOf cfg f)) e,
              .respond 500 (predictionFailedBody e)] }
  | predictFailed (m : LayersModel) (pre : List Event) (hpre : Loaded cfg w s m pre)
      (f : UploadedFile) (hf : Accepted req f) (data img : Bytes) (e : JSError)
      (h1 : w.writeFileSync (tempPath cfg f) f.buffer = .ok ())
      (h2 : w.bucketUpload (tempPath cfg f) (destination f) = .ok ())
      (h3 : w.unlinkSync (tempPath cfg f) = .ok ())
      (h4 : w.axiosGet (imageUrlOf cfg f) = .ok data)
      (h5 : w.decodeImage data = .ok img)
      (h6 : w.predict m img = .error e) :
      Served cfg w req s
        { model := some m, blobs := upsert (destination f) f.buffer s.blobs, docs := s.docs,
          log := pre ++ uploadLog cfg f ++
            [.call (.predictUsingModel (imageUrlOf cfg f)), .call (.axiosGet (imageUrlOf cfg f)),
              .call .tfDecodeImage, .call .modelPredict,
              .threw (.predictUsingModel (imageUrlOf cfg f)) e,
              .respond 500 (predictionFailedBody e)] }
  | storeFailed (m : LayersModel) (pre : List Event) (hpre : Loaded cfg w s m pre)
      (f : UploadedFile) (hf : Accepted req f) (data img : Bytes) (score : JSNum) (e : JSError)
      (h1 : w.writeFileSync (tempPath cfg f) f.buffer = .ok ())
      (h2 : w.bucketUpload (tempPath cfg f) (destination f) = .ok ())
      (h3 : w.unlinkSync (tempPath cfg f) = .ok ())
      (h4 : w.axiosGet (imageUrlOf cfg f) = .ok data)
      (h5 : w.decodeImage data = .ok img)
      (h6 : w.predict m img = .ok score)
      (h7 : w.firestoreSet "predictions" req.id (recordOf cfg w req f score) = .error e) :
      Served cfg w req s
        { model := some m, blobs := upsert (destination f) f.buffer s.blobs, docs := s.docs,
          log := pre ++ uploadLog cfg f ++ predictLog (imageUrlOf cfg f) score ++
            [.call (.storeData req.id (recordOf cfg w req f score)),
              .call (.firestoreSet "predictions" req.id (recordOf cfg w req f score)),
              .threw (.storeData req.id (recordOf cfg w req f score)) e,
              .respond 500 (predictionFailedBody e)] }
  | success (m : LayersModel) (pre : List Event) (hpre : Loaded cfg w s m pre)
      (f : UploadedFile) (hf : Accepted req f) (data img : Bytes) (score : JSNum)
      (h1 : w.writeFileSync (tempPath cfg f) f.buffer = .ok ())
      (h2 : w.bucketUpload (tempPath cfg f) (destination f) = .ok ())
      (h3 : w.unlinkSync (tempPath cfg f) = .ok ())
      (h4 : w.axiosGet (imageUrlOf cfg f) = .ok data)
      (h5 : w.decodeImage data = .ok img)
      (h6 : w.predict m img = .ok score)
      (h7 : w.firestoreSet "predictions" req.id (recordOf cfg w req f score) = .ok ()) :
      Served cfg w req s
        { model := some m, blobs := upsert (destination f) f.buffer s.blobs,
          docs := upsert req.id (recordOf cfg w req f score) s.docs,
          log := pre ++ uploadLog cfg f ++ predictLog (imageUrlOf cfg f) score ++
            [.call (.storeData req.id (recordOf cfg w req f score)),
              .call (.firestoreSet "predictions" req.id (recordOf cfg w req f score)),
              .returned (.storeData req.id (recordOf cfg w req f score)) .unit,
              .respond 200 (successBody (recordOf cfg w req f score))] }

/-- The part of the route after `ensureModelLoaded` has called `next()`. -/
theorem served_afterLoad (cfg : Config) (w : World) (req : Request) (s : ServerState)
    (m : LayersModel) (pre : List Event) (hpre : Loaded cfg w s m pre) :
    Served cfg w req s
      (match uploadSingle req with
        | .error e =>
          defaultErrorHandler e { model := some m, blobs := s.blobs, docs := s.docs, log := pre }
        | .ok file =>
          predictHandler cfg w req file
            { model := some m, blobs := s.blobs, docs := s.docs, log := pre }) := by
  rcases hu : uploadSingle req with e | _ | f
  · simpa [defaultErrorHandler, ServerState.emit] using Served.rejected m pre hpre e hu
  · simpa [predictHandler, ServerState.emit] using Served.noFile m pre hpre hu
  have hacc : Accepted req f := hu
  rcases h1 : w.writeFileSync (tempPath cfg f) f.buffer with e | u
  · simpa [predictHandler, uploadFileToStorage, h1,
      ServerState.emit, uploadCall] using Served.writeFailed m pre hpre f hacc e h1
  rcases h2 : w.bucketUpload (tempPath cfg f) (destination f) with e | u
  · simpa [predictHandler, uploadFileToStorage, h1, h2,
      ServerState.emit, uploadCall] using Served.bucketFailed m pre hpre f hacc e h1 h2
  rcases h3 : w.unlinkSync (tempPath cfg f) with e | u
  · simpa [predictHandler, uploadFileToStorage, h1, h2, h3,
      ServerState.emit, uploadCall] using Served.unlinkFailed m pre hpre f hacc e h1 h2 h3
  rcases h4 : w.axiosGet (imageUrlOf cfg f) with e | data
  · have h4' : w.axiosGet (publicUrl cfg (destination f)) = .error e := h4
    simpa [predictHandler, uploadFileToStorage, h1, h2, h3,
      predictUsingModel, h4', ServerState.emit, uploadCall, uploadLog, imageUrlOf]
      using Served.fetchFailed m pre hpre f hacc e h1 h2 h3 h4
  have h4' : w.axiosGet (publicUrl cfg (destination f)) = .ok data := h4
  rcases h5 : w.decodeImage data with e | img
  · simpa [predictHandler, uploadFileToStorage, h1, h2, h3,
      predictUsingModel, h4', h5, ServerState.emit, uploadCall, uploadLog, imageUrlOf]
      using Served.decodeFailed m pre hpre f hacc data e h1 h2 h3 h4 h5
  rcases h6 : w.predict m img with e | score
  · simpa [predictHandler, uploadFileToStorage, h1, h2, h3,
      predictUsingModel, h4', h5, h6, ServerState.emit, uploadCall, uploadLog, imageUrlOf]
      using Served.predictFailed m pre hpre f hacc data img e h1 h2 h3 h4 h5 h6
  rcases h7 : w.firestoreSet "predictions" req.id (recordOf cfg w req f score) with e | u
  · have h7' : w.firestoreSet "predictions" req.id
        (buildResponse req.id (publicUrl cfg (destination f)) score w.now) = .error e := h7
    simpa [predictHandler, uploadFileToStorage, h1, h2, h3,
      predictUsingModel, h4', h5, h6, storeData, h7', ServerState.emit, uploadCall, uploadLog,
      predictLog, imageUrlOf, recordOf]
      using Served.storeFailed m pre hpre f hacc data img score e h1 h2 h3 h4 h5 h6 h7
  · have h7' : w.firestoreSet "predictions" req.id
        (buildResponse req.id (publicUrl cfg (destination f)) score w.now) = .ok () := h7
    simpa [predictHandler, uploadFileToStorage, h1, h2, h3,
      predictUsingModel, h4', h5, h6, storeData, h7', ServerState.emit, uploadCall, uploadLog,
      predictLog, imageUrlOf, recordOf]
      using Served.success m pre hpre f hacc data img score h1 h2 h3 h4 h5 h6 h7

/-- Every request follows one of the paths of `Served`. -/
theorem serve_served (cfg : Config) (w : World) (req : Request) (s : ServerState) :
    Served cfg w req s (serve cfg w req s) := by
  rcases hm : s.model with _ | m
  · rcases hl : w.loadLayersModel cfg.modelUrl with e | m
    · simpa [serve, postPredict, ensureModelLoaded, ensureModelLoadedResume, loadModelResume,
        loadModelBegin, ServerState.emit, hm, hl] using Served.loadFailed e hm hl
    · simpa [serve, postPredict, ensureModelLoaded, ensureModelLoadedResume, loadModelResume,
        loadModelBegin, ServerState.emit, hm, hl]
        using served_afterLoad cfg w req s m _ (Loaded.fresh m hm hl)
  · simpa [serve, postPredict, ensureModelLoaded, hm]
      using served_afterLoad cfg w req s m _ (Loaded.present m hm)


/-- The log of a request is the log of one of the paths. -/
theorem trace_served (cfg : Config) (w : World) (req : Request) (s : ServerState) :
    ∃ s', Served cfg w req s s' ∧ serve cfg w req s = s' ∧ trace cfg w req s = s'.log :=
  ⟨_, serve_served cfg w req s, rfl, rfl⟩

/-! ## Lemmas -/

theorem ge_threshold_iff (q : ℚ) : (JSNum.num q).ge threshold = true ↔ 9 / 10 ≤ q := by
  have h : mkRat 9 10 = (9 / 10 : ℚ) := by norm_num [Rat.mkRat_eq_div]
  simp [JSNum.ge, threshold, h]

/-- `ensureModelLoaded` as `server.js` writes it: `await loadModel()` inside a `try`. -/
theorem ensureModelLoaded_eq (cfg : Config) (w : World) (s : ServerState) :
    ensureModelLoaded cfg w s =
      match s.model with
      | none =>
        match loadModel cfg w s with
        | (.ok _, s1) => (.next, s1)
        | (.error _, s1) => (.ended, s1.emit [.respond 500 modelNotLoadedBody])
      | some _ => (.next, s) := rfl

theorem publicUrl_destination (cfg : Config) (f : UploadedFile) :
    publicUrl cfg (destination f) =
      "https://storage.googleapis.com/" ++ cfg.bucketName ++ "/images/" ++ f.originalname := by
  have h : "/" ++ "images/" = "/images/" := by decide
  simp only [publicUrl, destination, ← String.append_assoc]
  rw [String.append_assoc _ "/" "images/", h]

theorem upsert_upsert {α : Type} (k : String) (v v' : α) (kvs : List (String × α)) :
    upsert k v' (upsert k v kvs) = upsert k v' kvs := by
  simp [upsert, List.filter_filter]

theorem lookup_upsert {α : Type} (k : String) (v : α) (kvs : List (String × α)) :
    (upsert k v kvs).lookup k = some v := by
  simp [upsert, List.lookup]

/-- `upload.single("image")` lets a file through exactly when it is the only file part of
the request, sent in the field `image`, with an image MIME type and within the size
limit. -/
theorem accepted_iff (req : Request) (f : UploadedFile) :
    Accepted req f ↔
      req.parts = [{ fieldname := "image", file := f }] ∧
        startsWith f.mimetype "image/" = true ∧ ¬ f.size > fileSizeLimit := by
  rcases req with ⟨id, parts⟩
  simp only [Accepted, uploadSingle]
  cases parts with
  | nil => simp [multerSingle]
  | cons p ps =>
    rcases p with ⟨fn, g⟩
    by_cases hfn : fn = "image"
    · by_cases hm : startsWith g.mimetype "image/" = true
      · by_cases hz : g.size > fileSizeLimit
        · simp [multerSingle, fileFilter, hfn, hm, hz]
          rintro rfl rfl
          exact fun _ => hz
        · cases ps with
          | nil =>
            simp [multerSingle, fileFilter, hfn, hm, hz]
            rintro rfl
            exact ⟨hm, Nat.le_of_not_lt hz⟩
          | cons q qs => simp [multerSingle, fileFilter, hfn, hm, hz]
      · simp [multerSingle, fileFilter, hfn, hm]
        rintro rfl rfl
        simp [hm]
    · simp [multerSingle, hfn]

theorem image_of_accepted (req : Request) (f : UploadedFile) (h : Accepted req f) :
    req.image = some f := by
  have hp := ((accepted_iff req f).mp h).1
  simp [Request.image, hp]

theorem invalid_not_accepted (req : Request) (h : req.Invalid) (f : UploadedFile) :
    ¬ Accepted req f := by
  intro hacc
  have hi := image_of_accepted req f hacc
  obtain ⟨-, hm, hz⟩ := (accepted_iff req f).mp hacc
  rcases h with h | ⟨g, hg, h | h⟩
  · simp [hi] at h
  · rw [hi] at hg; cases hg; simp [hm] at h
  · rw [hi] at hg; cases hg; exact hz h

theorem uploadSingle_nil (req : Request) (h : req.parts = []) : uploadSingle req = .ok none := by
  simp [uploadSingle, h, multerSingle]

theorem loadCalls_append (a b : List Event) :
    loadCalls (a ++ b) = loadCalls a + loadCalls b := by
  induction a with
  | nil => simp [loadCalls]
  | cons e es ih =>
    cases e with
    | call c => cases c <;> simp [loadCalls, ih]; omega
    | returned c v => simp [loadCalls, ih]
    | threw c e => simp [loadCalls, ih]
    | respond st b => simp [loadCalls, ih]

theorem responses_append (a b : List Event) :
    responses (a ++ b) = responses a ++ responses b := by
  induction a with
  | nil => simp [responses]
  | cons e es ih => cases e <;> simp [responses, ih]

/-- A request served without a model handle calls `tf.loadLayersModel`. -/
theorem load_called_of_no_model (cfg : Config) (w : World) (req : Request) (s : ServerState)
    (hm : s.model = none) :
    Event.call (.tfLoadLayersModel cfg.modelUrl) ∈ trace cfg w req s := by
  obtain ⟨s', hs, -, ht⟩ := trace_served cfg w req s
  rw [ht]
  cases hs with
  | loadFailed e hm hl => simp
  | _ => cases ‹Loaded _ _ _ _ _› <;> simp_all

/-- What a request with a file can call and write, in terms of the file alone. -/
theorem file_facts (cfg : Config) (w : World) (req : Request) (s : ServerState)
    (f : UploadedFile) (hf : req.image = some f) :
    (∀ n d, Event.call (.uploadFileToStorage n d) ∈ trace cfg w req s →
        n = f.originalname ∧ d = destination f) ∧
      (∀ p d, Event.call (.bucketUpload p d) ∈ trace cfg w req s → d = destination f) ∧
      (∀ i data, Event.call (.storeData i data) ∈ trace cfg w req s →
        data.imageUrl = publicUrl cfg (destination f)) ∧
      ((serve cfg w req s).blobs = s.blobs ∨
        (serve cfg w req s).blobs = upsert (destination f) f.buffer s.blobs) := by
  obtain ⟨s', hs, hserve, ht⟩ := trace_served cfg w req s
  rw [ht, hserve]
  have hacc : ∀ g, Accepted req g → g = f := fun g hg => by
    have := image_of_accepted req g hg; rw [hf] at this; cases this; rfl
  cases hs with
  | loadFailed e hm hl => simp
  | noFile m pre hpre hu => cases hpre <;> simp
  | rejected m pre hpre e hu => cases hpre <;> simp
  | writeFailed m pre hpre g hg =>
    cases hacc g hg; cases hpre <;> simp [uploadCall]
  | bucketFailed m pre hpre g hg =>
    cases hacc g hg; cases hpre <;> simp [uploadCall]
  | unlinkFailed m pre hpre g hg =>
    cases hacc g hg; cases hpre <;> simp [uploadCall]
  | fetchFailed m pre hpre g hg =>
    cases hacc g hg; cases hpre <;> simp [uploadCall, uploadLog]
  | decodeFailed m pre hpre g hg =>
    cases hacc g hg; cases hpre <;> simp [uploadCall, uploadLog]
  | predictFailed m pre hpre g hg =>
    cases hacc g hg; cases hpre <;> simp [uploadCall, uploadLog]
  | storeFailed m pre hpre g hg =>
    cases hacc g hg
    cases hpre <;>
      simp [uploadCall, uploadLog, predictLog, recordOf, buildResponse, imageUrlOf]
  | success m pre hpre g hg =>
    cases hacc g hg
    cases hpre <;>
      simp [uploadCall, uploadLog, predictLog, recordOf, buildResponse, imageUrlOf]

/-- A caller that arrives without a handle adds one call to `tf.loadLayersModel` and joins
the queue; the handle stays absent until a promise settles. -/
theorem step_arrival (cfg : Config) (l : EventLoop) (t : Tick) (c : Caller)
    (hm : l.srv.model = none) (hc : t.caller = some c) :
    loadCalls (l.step cfg t).srv.log = loadCalls l.srv.log + 1 ∧
      (l.step cfg t).waiting = l.waiting ++ [c] ∧
      (l.step cfg t).srv.model = none ∧
      (l.step cfg t).passed = l.passed ∧ (l.step cfg t).refused = l.refused := by
  cases t with
  | listen =>
    cases hc
    simp [EventLoop.step, loadModelBegin, ServerState.emit, loadCalls_append, loadCalls, hm]
  | arrive id =>
    cases hc
    simp [EventLoop.step, loadModelBegin, ServerState.emit, loadCalls_append, loadCalls, hm]
  | settle i r => simp [Tick.caller] at hc

theorem run_arrivals (cfg : Config) (ts : List Tick) :
    ∀ l : EventLoop, l.srv.model = none → (∀ t ∈ ts, (Tick.caller t).isSome) →
      loadCalls (l.run cfg ts).srv.log = loadCalls l.srv.log + ts.length ∧
        (l.run cfg ts).waiting = l.waiting ++ ts.filterMap Tick.caller ∧
        (l.run cfg ts).srv.model = none ∧
        (l.run cfg ts).passed = l.passed ∧ (l.run cfg ts).refused = l.refused := by
  induction ts with
  | nil => intro l hm _; simpa [EventLoop.run] using hm
  | cons t ts ih =>
    intro l hm hts
    obtain ⟨c, hc⟩ := Option.isSome_iff_exists.mp (hts t (List.mem_cons_self _ _))
    obtain ⟨h1, h2, h3, h4, h5⟩ := step_arrival cfg l t c hm hc
    obtain ⟨k1, k2, k3, k4, k5⟩ :=
      ih (l.step cfg t) h3 (fun u hu => hts u (List.mem_cons_of_mem _ hu))
    have hrun : l.run cfg (t :: ts) = (l.step cfg t).run cfg ts := rfl
    rw [hrun, k1, k2, k3, k4, k5, h1, h2, h4, h5]
    simp [hc]
    omega

/-- The record of lines 141-153, field by field, with the texts of the source. -/
theorem buildResponse_facts (id url : String) (sc : JSNum) (t : String) :
    (buildResponse id url sc t).confidenceScore = sc ∧
      ((buildResponse id url sc t).result = "Positive" ↔ sc.ge threshold = true) ∧
      ((buildResponse id url sc t).result = "Negative" ↔ sc.ge threshold = false) ∧
      ((buildResponse id url sc t).suggestion =
          "Consult with the nearest doctor immediately to determine the level of disease risk."
        ↔ (buildResponse id url sc t).result = "Positive") ∧
      ((buildResponse id url sc t).suggestion = "You are healthy!" ↔
        (buildResponse id url sc t).result ≠ "Positive") ∧
      ((buildResponse id url sc t).result = "Positive" ∨
        (buildResponse id url sc t).result = "Negative") := by
  have hc : ("Consult with the nearest doctor immediately to determine the level of disease risk."
      : String) ≠ "You are healthy!" := by decide
  cases hg : sc.ge threshold <;>
    simp [buildResponse, hg, consultText, healthyText, hc, hc.symm]

/-- A request whose file is accepted, with a handle at hand and with the upload and the
inference answering, reaches `storeData`: the calls it makes and the object it writes. -/
theorem scored_run (cfg : Config) (w : World) (req : Request) (s : ServerState)
    (f : UploadedFile) (m : LayersModel) (sc : JSNum)
    (ha : Accepted req f) (hr : Ready cfg w s m) (hu : Uploads cfg w f)
    (hs : Scores cfg w f m sc) :
    Event.call (.uploadFileToStorage f.originalname ("images/" ++ f.originalname)) ∈
        trace cfg w req s ∧
      Event.call (.bucketUpload (cfg.dirname ++ "/temp/" ++ f.originalname)
        ("images/" ++ f.originalname)) ∈ trace cfg w req s ∧
      Event.call (.storeData req.id (buildResponse req.id
        ("https://storage.googleapis.com/" ++ cfg.bucketName ++ "/" ++
          ("images/" ++ f.originalname)) sc w.now)) ∈ trace cfg w req s ∧
      (serve cfg w req s).blobs = upsert ("images/" ++ f.originalname) f.buffer s.blobs ∧
      (serve cfg w req s).model = some m := by
  obtain ⟨h1, h2, h3⟩ := hu
  obtain ⟨data, img, h4, h5, h6⟩ := hs
  have ha' : uploadSingle req = .ok (some f) := ha
  rcases h7 : w.firestoreSet "predictions" req.id (buildResponse req.id
      ("https://storage.googleapis.com/" ++ cfg.bucketName ++ "/" ++
        ("images/" ++ f.originalname)) sc w.now) with e | u <;>
    rcases hr with hm | ⟨hm, hl⟩
  all_goals
    first
    | simp [trace, serve, postPredict, ensureModelLoaded, hm, ha', predictHandler,
        uploadFileToStorage, tempPath, destination, publicUrl, h1, h2, h3, predictUsingModel,
        h4, h5, h6, storeData, h7, ServerState.emit]
      done
    | simp [trace, serve, postPredict, ensureModelLoaded, ensureModelLoadedResume,
        loadModelResume, loadModelBegin, hm, hl, ha', predictHandler, uploadFileToStorage,
        tempPath, destination, publicUrl, h1, h2, h3, predictUsingModel, h4, h5, h6,
        storeData, h7, ServerState.emit]

/-! ## The claims -/

/-- C1: whenever `predictUsingModel` returns a score `sc` during a request, the record the
handler hands to `storeData` carries that score, its `result` is "Positive" exactly when
`sc >= 0.9` and "Negative" otherwise, and its `suggestion` is the consult-a-doctor text
exactly when `result` is "Positive" and "You are healthy!" otherwise; a score of 0.9 gives
"Positive" and a score of 0.8999 gives "Negative". -/
theorem C1_classification (cfg : Config) (w : World) (req : Request) (s : ServerState)
    (url : String) (sc : JSNum)
    (h : Event.returned (.predictUsingModel url) (.score sc) ∈ trace cfg w req s) :
    ∃ data, Event.call (.storeData req.id data) ∈ trace cfg w req s ∧
      data.confidenceScore = sc ∧
      (data.result = "Positive" ↔ sc.ge threshold = true) ∧
      (data.result = "Negative" ↔ sc.ge threshold = false) ∧
      (data.suggestion =
          "Consult with the nearest doctor immediately to determine the level of disease risk."
        ↔ data.result = "Positive") ∧
      (data.suggestion = "You are healthy!" ↔ data.result ≠ "Positive") ∧
      (data.result = "Positive" ∨ data.result = "Negative") ∧
      (∀ q : ℚ, sc = .num q → (data.result = "Positive" ↔ 9 / 10 ≤ q)) ∧
      (sc = .num (9 / 10) → data.result = "Positive") ∧
      (sc = .num (8999 / 10000) → data.result = "Negative") := by
  obtain ⟨s', hs, -, ht⟩ := trace_served cfg w req s
  rw [ht] at h ⊢
  have key : ∀ f : UploadedFile, ∀ score : JSNum, score = sc →
      (recordOf cfg w req f score).confidenceScore = sc ∧
      ((recordOf cfg w req f score).result = "Positive" ↔ sc.ge threshold = true) ∧
      ((recordOf cfg w req f score).result = "Negative" ↔ sc.ge threshold = false) ∧
      ((recordOf cfg w req f score).suggestion =
          "Consult with the nearest doctor immediately to determine the level of disease risk."
        ↔ (recordOf cfg w req f score).result = "Positive") ∧
      ((recordOf cfg w req f score).suggestion = "You are healthy!" ↔
        (recordOf cfg w req f score).result ≠ "Positive") ∧
      ((recordOf cfg w req f score).result = "Positive" ∨
        (recordOf cfg w req f score).result = "Negative") ∧
      (∀ q : ℚ, sc = .num q → ((recordOf cfg w req f score).result = "Positive" ↔ 9 / 10 ≤ q)) ∧
      (sc = .num (9 / 10) → (recordOf cfg w req f score).result = "Positive") ∧
      (sc = .num (8999 / 10000) → (recordOf cfg w req f score).result = "Negative") := by
    rintro f score rfl
    obtain ⟨b1, b2, b3, b4, b5, b6⟩ :=
      buildResponse_facts req.id (imageUrlOf cfg f) score w.now
    refine ⟨b1, b2, b3, b4, b5, b6, ?_, ?_, ?_⟩
    · intro q hq
      rw [← ge_threshold_iff, ← hq]
      exact b2
    · intro hq
      exact b2.mpr (by rw [hq, ge_threshold_iff])
    · intro hq
      refine b3.mpr ?_
      rw [hq, ← Bool.not_eq_true, ge_threshold_iff]
      norm_num
  cases hs with
  | storeFailed m pre hpre f hf data img score e h1 h2 h3 h4 h5 h6 h7 =>
    refine ⟨recordOf cfg w req f score, by simp, key f score ?_⟩
    cases hpre <;> simp [uploadLog, predictLog, uploadCall] at h <;> exact h.2.symm
  | success m pre hpre f hf data img score h1 h2 h3 h4 h5 h6 h7 =>
    refine ⟨recordOf cfg w req f score, by simp, key f score ?_⟩
    cases hpre <;> simp [uploadLog, predictLog, uploadCall] at h <;> exact h.2.symm
  | loadFailed e hm hl => simp at h
  | _ => cases ‹Loaded _ _ _ _ _› <;> simp [uploadLog, uploadCall] at h

/-- Witness of C1: the sample JPEG scored exactly 0.9 is stored as "Positive", with the
consult-a-doctor suggestion. -/
theorem C1_classification_witness :
    Event.returned
        (.predictUsingModel "https://storage.googleapis.com/mira-bucket/images/scan.jpg")
        (.score threshold) ∈ trace sampleConfig (goodWorld threshold) sampleRequest .init ∧
      ∃ data, Event.call (.storeData "abc123" data) ∈
          trace sampleConfig (goodWorld threshold) sampleRequest .init ∧
        data.result = "Positive" ∧
        data.suggestion =
          "Consult with the nearest doctor immediately to determine the level of disease risk." :=
  ⟨by decide,
    (C1_classification sampleConfig (goodWorld threshold) sampleRequest .init
      "https://storage.googleapis.com/mira-bucket/images/scan.jpg" threshold
      (by decide)).imp fun _ h =>
        ⟨h.1, h.2.2.1.2 (by decide), h.2.2.2.2.1.2 (h.2.2.1.2 (by decide))⟩⟩

/-- C2 fails as stated: a request without a file is answered with 500, not 400, when the
model handle is absent and its load fails; and a text/plain upload is answered with 500
by the default error handler even when the model is loaded. -/
theorem C2_counterexample :
    emptyRequest.Invalid ∧
      responses (trace sampleConfig modelDownWorld emptyRequest .init)
        = [(500, modelNotLoadedBody)] ∧
      textRequest.Invalid ∧
      responses (trace sampleConfig (goodWorld threshold) textRequest loadedState)
        = [(500, .html "File must be an image.")] := by
  refine ⟨Or.inl rfl, by decide, Or.inr ⟨sampleText, by decide, Or.inl (by decide)⟩,
    by decide⟩

/-- C2, amended: for every request whose upload fails validation, and every state of the
model handle, neither `uploadFileToStorage` nor `storeData` is invoked, the bucket and the
collection are left as they were, and exactly one response is sent, with an error status
(400 or 500, never 200); when the request carries no file at all and the model handle
is available (present already, or loaded by this request), the response is the 400 "No
file uploaded.". -/
theorem C2_invalid_upload (cfg : Config) (w : World) (req : Request) (s : ServerState)
    (h : req.Invalid) :
    (∀ n d, Event.call (.uploadFileToStorage n d) ∉ trace cfg w req s) ∧
      (∀ id data, Event.call (.storeData id data) ∉ trace cfg w req s) ∧
      (serve cfg w req s).blobs = s.blobs ∧
      (serve cfg w req s).docs = s.docs ∧
      (∃ st body, responses (trace cfg w req s) = [(st, body)] ∧ (st = 400 ∨ st = 500)) ∧
      (req.parts = [] →
        (s.model ≠ none ∨ ∃ m, w.loadLayersModel cfg.modelUrl = .ok m) →
        responses (trace cfg w req s) = [(400, noFileBody)]) := by
  obtain ⟨s', hs, hserve, ht⟩ := trace_served cfg w req s
  rw [ht, hserve]
  have hbad := invalid_not_accepted req h
  cases hs with
  | loadFailed e hm hl => simp [responses, hm, hl]
  | noFile m pre hpre hu => cases hpre <;> simp [responses]
  | rejected m pre hpre e hu =>
    have hne : req.parts ≠ [] := fun hp => by
      rw [uploadSingle_nil req hp] at hu; cases hu
    cases hpre <;> simp [responses, hne]
  | writeFailed m pre hpre f hf => exact absurd hf (hbad f)
  | bucketFailed m pre hpre f hf => exact absurd hf (hbad f)
  | unlinkFailed m pre hpre f hf => exact absurd hf (hbad f)
  | fetchFailed m pre hpre f hf => exact absurd hf (hbad f)
  | decodeFailed m pre hpre f hf => exact absurd hf (hbad f)
  | predictFailed m pre hpre f hf => exact absurd hf (hbad f)
  | storeFailed m pre hpre f hf => exact absurd hf (hbad f)
  | success m pre hpre f hf => exact absurd hf (hbad f)

/-- Witness of C2: an image of 5 MiB and one byte, sent to a process whose model is loaded. -/
theorem C2_invalid_upload_witness :
    largeRequest.Invalid ∧
      (∀ id data, Event.call (.storeData id data) ∉
        trace sampleConfig (goodWorld threshold) largeRequest loadedState) :=
  ⟨Or.inr ⟨sampleLarge, by decide, Or.inr (by decide)⟩,
    (C2_invalid_upload sampleConfig (goodWorld threshold) largeRequest loadedState
      (Or.inr ⟨sampleLarge, by decide, Or.inr (by decide)⟩)).2.1⟩

/-- C3 fails as stated: with no model handle, a request without a file reaches
`tf.loadLayersModel` before it is rejected. -/
theorem C3_counterexample :
    emptyRequest.Invalid ∧ ServerState.init.model = none ∧
      Call.tfLoadLayersModel "https://models.example/model.json" ∈
        externalCalls (beforeResponse
          (trace sampleConfig (goodWorld threshold) emptyRequest .init)) ∧
      responses (trace sampleConfig (goodWorld threshold) emptyRequest .init)
        = [(400, noFileBody)] := by
  refine ⟨Or.inl rfl, rfl, by decide, by decide⟩

/-- C3, amended: for every request whose image is missing, of a non-image type or over
5 MiB: when the model handle exists, no third-party service is called at all before (or
after) the rejection; when no handle exists, the one call made is the
`tf.loadLayersModel` of `ensureModelLoaded`, which comes before the rejection; in both
cases there is no blob upload, no image fetch and no record write. -/
theorem C3_external_calls (cfg : Config) (w : World) (req : Request) (s : ServerState)
    (h : req.Invalid) :
    externalCalls (beforeResponse (trace cfg w req s)) =
        (if s.model.isSome then [] else [.tfLoadLayersModel cfg.modelUrl]) ∧
      externalCalls (trace cfg w req s) =
        (if s.model.isSome then [] else [.tfLoadLayersModel cfg.modelUrl]) ∧
      (∃ st body, responses (trace cfg w req s) = [(st, body)] ∧ st ≠ 200) := by
  obtain ⟨s', hs, hserve, ht⟩ := trace_served cfg w req s
  rw [ht]
  have hbad := invalid_not_accepted req h
  cases hs with
  | loadFailed e hm hl =>
    simp [responses, externalCalls, beforeResponse, Call.isService, hm]
  | noFile m pre hpre hu =>
    cases hpre <;> simp_all [responses, externalCalls, beforeResponse, Call.isService]
  | rejected m pre hpre e hu =>
    cases hpre <;> simp_all [responses, externalCalls, beforeResponse, Call.isService]
  | writeFailed m pre hpre f hf => exact absurd hf (hbad f)
  | bucketFailed m pre hpre f hf => exact absurd hf (hbad f)
  | unlinkFailed m pre hpre f hf => exact absurd hf (hbad f)
  | fetchFailed m pre hpre f hf => exact absurd hf (hbad f)
  | decodeFailed m pre hpre f hf => exact absurd hf (hbad f)
  | predictFailed m pre hpre f hf => exact absurd hf (hbad f)
  | storeFailed m pre hpre f hf => exact absurd hf (hbad f)
  | success m pre hpre f hf => exact absurd hf (hbad f)

/-- Witness of C3: a text/plain upload sent to a process whose model is loaded. -/
theorem C3_external_calls_witness :
    textRequest.Invalid ∧
      externalCalls (trace sampleConfig (goodWorld threshold) textRequest loadedState) = [] :=
  ⟨Or.inr ⟨sampleText, by decide, Or.inl (by decide)⟩,
    (C3_external_calls sampleConfig (goodWorld threshold) textRequest loadedState
      (Or.inr ⟨sampleText, by decide, Or.inl (by decide)⟩)).2.1⟩


/-- C4: in the route, a failing step aborts every later step. If the model load of
`ensureModelLoaded` fails, the only calls of the request are `loadModel` and its
`tf.loadLayersModel`: no upload, no inference, no record write. If `uploadFileToStorage`
fails, `predictUsingModel` and `storeData` are not invoked, the image is not fetched and the
collection is unchanged. If `predictUsingModel` fails, `storeData` is not invoked and the
collection is unchanged. No function or third-party operation is called twice, so no step is
retried. -/
theorem C4_failure_aborts (cfg : Config) (w : World) (req : Request) (s : ServerState) :
    ((∃ e, Event.threw .loadModel e ∈ trace cfg w req s) →
        callNames (trace cfg w req s) = ["loadModel", "tf.loadLayersModel"] ∧
        (∀ n d, Event.call (.uploadFileToStorage n d) ∉ trace cfg w req s) ∧
        (∀ u, Event.call (.predictUsingModel u) ∉ trace cfg w req s) ∧
        (∀ i d, Event.call (.storeData i d) ∉ trace cfg w req s) ∧
        (serve cfg w req s).blobs = s.blobs ∧ (serve cfg w req s).docs = s.docs) ∧
      ((∃ n d e, Event.threw (.uploadFileToStorage n d) e ∈ trace cfg w req s) →
        (∀ u, Event.call (.predictUsingModel u) ∉ trace cfg w req s) ∧
        (∀ i d, Event.call (.storeData i d) ∉ trace cfg w req s) ∧
        "axios.get" ∉ callNames (trace cfg w req s) ∧
        "model.predict" ∉ callNames (trace cfg w req s) ∧
        "doc.set" ∉ callNames (trace cfg w req s) ∧
        (serve cfg w req s).docs = s.docs) ∧
      ((∃ u e, Event.threw (.predictUsingModel u) e ∈ trace cfg w req s) →
        (∀ i d, Event.call (.storeData i d) ∉ trace cfg w req s) ∧
        "doc.set" ∉ callNames (trace cfg w req s) ∧
        (serve cfg w req s).docs = s.docs) ∧
      (callNames (trace cfg w req s)).Nodup := by
  obtain ⟨s', hs, hserve, ht⟩ := trace_served cfg w req s
  rw [ht, hserve]
  cases hs with
  | loadFailed e hm hl => simp [callNames, Call.name]
  | _ =>
    cases ‹Loaded _ _ _ _ _› <;>
      simp [callNames, Call.name, uploadLog, predictLog, uploadCall]

/-- Witness of C4: the three failures, at the sample request. -/
theorem C4_failure_aborts_witness :
    (∀ i d, Event.call (.storeData i d) ∉ trace sampleConfig modelDownWorld sampleRequest .init) ∧
      (∀ i d, Event.call (.storeData i d) ∉
        trace sampleConfig bucketDownWorld sampleRequest .init) ∧
      (∀ i d, Event.call (.storeData i d) ∉
        trace sampleConfig decodeDownWorld sampleRequest .init) :=
  ⟨((C4_failure_aborts sampleConfig modelDownWorld sampleRequest .init).1
      ⟨{ message := some "Request failed" }, by decide⟩).2.2.2.1,
    ((C4_failure_aborts sampleConfig bucketDownWorld sampleRequest .init).2.1
      ⟨"scan.jpg", "images/scan.jpg", { message := some "Forbidden" }, by decide⟩).2.1,
    ((C4_failure_aborts sampleConfig decodeDownWorld sampleRequest .init).2.2.1
      ⟨"https://storage.googleapis.com/mira-bucket/images/scan.jpg",
        { message := some "Expected image" }, by decide⟩).1⟩

/-- C5 fails as stated: when the Firestore write is refused, `predictUsingModel` has
returned a score and yet no record is written for the id. -/
theorem C5_counterexample :
    Event.returned
        (.predictUsingModel "https://storage.googleapis.com/mira-bucket/images/scan.jpg")
        (.score threshold) ∈ trace sampleConfig storeDownWorld sampleRequest .init ∧
      (serve sampleConfig storeDownWorld sampleRequest .init).docs.lookup "abc123" = none ∧
      responses (trace sampleConfig storeDownWorld sampleRequest .init)
        = [(500, predictionFailedBody { message := some "UNAVAILABLE" })] := by
  refine ⟨by decide, by decide, by decide⟩

/-- C5, amended: `storeData` is invoked for the request id exactly when `predictUsingModel`
returned a score, and it completes (the record is written under the id) exactly when, in
addition, the Firestore `set` of that record succeeds; the record written is the one
built from that score, and when `storeData` does not complete the collection is
unchanged. -/
theorem C5_record_written (cfg : Config) (w : World) (req : Request) (s : ServerState) :
    ((∃ data, Event.call (.storeData req.id data) ∈ trace cfg w req s) ↔
        ∃ url sc, Event.returned (.predictUsingModel url) (.score sc) ∈ trace cfg w req s) ∧
      ((∃ data, Event.returned (.storeData req.id data) .unit ∈ trace cfg w req s) ↔
        ∃ url sc, Event.returned (.predictUsingModel url) (.score sc) ∈ trace cfg w req s ∧
          w.firestoreSet "predictions" req.id (buildResponse req.id url sc w.now) = .ok ()) ∧
      (∀ data, Event.returned (.storeData req.id data) .unit ∈ trace cfg w req s →
        (serve cfg w req s).docs = upsert req.id data s.docs ∧
        (serve cfg w req s).docs.lookup req.id = some data ∧
        ∃ url sc, Event.returned (.predictUsingModel url) (.score sc) ∈ trace cfg w req s ∧
          data = buildResponse req.id url sc w.now) ∧
      ((∀ data, Event.returned (.storeData req.id data) .unit ∉ trace cfg w req s) →
        (serve cfg w req s).docs = s.docs) := by
  obtain ⟨s', hs, hserve, ht⟩ := trace_served cfg w req s
  rw [ht, hserve]
  cases hs with
  | loadFailed e hm hl => simp
  | storeFailed m pre hpre f hf data img score e h1 h2 h3 h4 h5 h6 h7 =>
    have h7' : w.firestoreSet "predictions" req.id
        (buildResponse req.id (imageUrlOf cfg f) score w.now) = .error e := h7
    cases hpre <;> simp [uploadLog, predictLog, uploadCall, h7']
  | success m pre hpre f hf data img score h1 h2 h3 h4 h5 h6 h7 =>
    have h7' : w.firestoreSet "predictions" req.id
        (buildResponse req.id (imageUrlOf cfg f) score w.now) = .ok () := h7
    cases hpre <;>
      simp [uploadLog, predictLog, uploadCall, h7', lookup_upsert, recordOf] <;>
      exact ⟨⟨_, _, ⟨rfl, rfl⟩, h7'⟩, ⟨_, _, ⟨rfl, rfl⟩, rfl⟩⟩
  | _ =>
    cases ‹Loaded _ _ _ _ _› <;> simp [uploadLog, predictLog, uploadCall]


/-- Witness of C5: the sample request, every service answering; the record is stored
under "abc123". -/
theorem C5_record_written_witness :
    Event.returned
        (.storeData "abc123" (buildResponse "abc123"
          "https://storage.googleapis.com/mira-bucket/images/scan.jpg" threshold
          "2024-06-01T00:00:00.000Z")) .unit ∈
        trace sampleConfig (goodWorld threshold) sampleRequest .init ∧
      (serve sampleConfig (goodWorld threshold) sampleRequest .init).docs.lookup "abc123" =
        some (buildResponse "abc123"
          "https://storage.googleapis.com/mira-bucket/images/scan.jpg" threshold
          "2024-06-01T00:00:00.000Z") :=
  ⟨by decide,
    ((C5_record_written sampleConfig (goodWorld threshold) sampleRequest .init).2.2.1
      (buildResponse "abc123" "https://storage.googleapis.com/mira-bucket/images/scan.jpg"
        threshold "2024-06-01T00:00:00.000Z") (by decide)).2.1⟩

/-- C6: when `uploadFileToStorage`, `predictUsingModel` (with score `sc`) and `storeData`
all return during a request, the one response is 200 with the body {status: "success",
message: "Prediction successful", data}, where `data` is the JSON form of the record passed
to `storeData` under the request id (and now stored under it): `data.id` is the path
parameter, `data.imageUrl` is "https://storage.googleapis.com/<bucket name>/images/<original
file name>", `data.result` is "Positive" or "Negative" and, the score being a finite
number, `data.confidenceScore` is that score. -/
theorem C6_success_response (cfg : Config) (w : World) (req : Request) (s : ServerState)
    (n d u url : String) (sc : JSNum) (id : String) (stored : PredictionRecord)
    (hup : Event.returned (.uploadFileToStorage n d) (.url u) ∈ trace cfg w req s)
    (hpr : Event.returned (.predictUsingModel url) (.score sc) ∈ trace cfg w req s)
    (hst : Event.returned (.storeData id stored) .unit ∈ trace cfg w req s) :
    ∃ f data, req.image = some f ∧
      responses (trace cfg w req s) =
        [(200, .json [("status", .str "success"), ("message", .str "Prediction successful"),
          ("data", .record data)])] ∧
      Event.call (.storeData req.id stored) ∈ trace cfg w req s ∧
      id = req.id ∧
      (serve cfg w req s).docs.lookup req.id = some stored ∧
      data = stored.toJson ∧
      stored.id = req.id ∧ data.id = req.id ∧
      stored.imageUrl =
        "https://storage.googleapis.com/" ++ cfg.bucketName ++ "/images/" ++ f.originalname ∧
      data.imageUrl =
        "https://storage.googleapis.com/" ++ cfg.bucketName ++ "/images/" ++ f.originalname ∧
      u = data.imageUrl ∧ url = data.imageUrl ∧
      (data.result = "Positive" ∨ data.result = "Negative") ∧
      data.result = stored.result ∧
      stored.confidenceScore = sc ∧
      (∀ q : ℚ, sc = .num q → data.confidenceScore = .num q) := by
  obtain ⟨s', hs, hserve, ht⟩ := trace_served cfg w req s
  rw [ht] at hup hpr hst ⊢
  rw [hserve]
  cases hs with
  | loadFailed e hm hl => simp at hst
  | success m pre hpre f hf data img score h1 h2 h3 h4 h5 h6 h7 =>
    have e1 : id = req.id ∧ stored = recordOf cfg w req f score := by
      cases hpre <;> simpa [uploadLog, predictLog, uploadCall] using hst
    have e2 : url = imageUrlOf cfg f ∧ sc = score := by
      cases hpre <;> simpa [uploadLog, predictLog, uploadCall] using hpr
    have e3 : (n = f.originalname ∧ d = destination f) ∧ u = imageUrlOf cfg f := by
      cases hpre <;> simpa [uploadLog, predictLog, uploadCall] using hup
    obtain ⟨rfl, rfl⟩ := e1
    obtain ⟨rfl, rfl⟩ := e2
    obtain ⟨-, rfl⟩ := e3
    have e4 : imageUrlOf cfg f =
        "https://storage.googleapis.com/" ++ cfg.bucketName ++ "/images/" ++ f.originalname :=
      publicUrl_destination cfg f
    have e5 := (buildResponse_facts req.id (imageUrlOf cfg f) sc w.now).2.2.2.2.2
    refine ⟨f, (recordOf cfg w req f sc).toJson, image_of_accepted req f hf, ?_, by simp, rfl,
      lookup_upsert _ _ _, rfl, rfl, rfl, e4, e4, rfl, rfl, e5, rfl, rfl, ?_⟩
    · cases hpre <;>
        simp [responses, uploadLog, predictLog, successBody, jsonBody]
    · rintro q rfl
      rfl
  | _ =>
    cases ‹Loaded _ _ _ _ _› <;> simp [uploadLog, predictLog, uploadCall] at hst

/-- Witness of C6: the sample JPEG with id "abc123", every service answering, scored 0.9. -/
theorem C6_success_response_witness :
    (Event.returned (.uploadFileToStorage "scan.jpg" "images/scan.jpg")
        (.url "https://storage.googleapis.com/mira-bucket/images/scan.jpg") ∈
        trace sampleConfig (goodWorld threshold) sampleRequest .init ∧
      Event.returned
        (.predictUsingModel "https://storage.googleapis.com/mira-bucket/images/scan.jpg")
        (.score threshold) ∈ trace sampleConfig (goodWorld threshold) sampleRequest .init ∧
      Event.returned
        (.storeData "abc123" (buildResponse "abc123"
          "https://storage.googleapis.com/mira-bucket/images/scan.jpg" threshold
          "2024-06-01T00:00:00.000Z")) .unit ∈
        trace sampleConfig (goodWorld threshold) sampleRequest .init) ∧
      ∃ f data, sampleRequest.image = some f ∧
        responses (trace sampleConfig (goodWorld threshold) sampleRequest .init) =
          [(200, .json [("status", .str "success"),
            ("message", .str "Prediction successful"), ("data", .record data)])] ∧
        data.id = "abc123" ∧ data.confidenceScore = .num (mkRat 9 10) :=
  ⟨⟨by decide, by decide, by decide⟩,
    (C6_success_response sampleConfig (goodWorld threshold) sampleRequest .init
      "scan.jpg" "images/scan.jpg"
      "https://storage.googleapis.com/mira-bucket/images/scan.jpg"
      "https://storage.googleapis.com/mira-bucket/images/scan.jpg" threshold "abc123"
      (buildResponse "abc123" "https://storage.googleapis.com/mira-bucket/images/scan.jpg"
        threshold "2024-06-01T00:00:00.000Z")
      (by decide) (by decide) (by decide)).imp fun _ h =>
        h.imp fun _ h =>
          ⟨h.1, h.2.1, h.2.2.2.2.2.2.2.1, h.2.2.2.2.2.2.2.2.2.2.2.2.2.2.2 (mkRat 9 10) rfl⟩⟩

/-- C7 fails as stated: the body sent when the model load fails has the keys status,
message and data, the body sent when the bucket upload fails has the keys status, message
and error; the two sets differ, and `data` is none of status, message, error. -/
theorem C7_counterexample :
    responses (trace sampleConfig modelDownWorld sampleRequest .init)
        = [(500, .json [("status", .str "fail"),
            ("message", .str "Model not loaded. Please try again later."),
            ("data", .emptyObject)])] ∧
      responses (trace sampleConfig bucketDownWorld sampleRequest .init)
        = [(500, .json [("status", .str "fail"), ("message", .str "Prediction failed"),
            ("error", .str "Forbidden")])] ∧
      modelNotLoadedBody.keys = ["status", "message", "data"] ∧
      (predictionFailedBody { message := some "Forbidden" }).keys
        = ["status", "message", "error"] ∧
      "data" ∉ ["status", "message", "error"] := by
  refine ⟨by decide, by decide, by decide, by decide, by decide⟩

/-- C7, amended: every non-validation failure is answered with exactly one response, of
status 500, whose body has `status: "fail"` and a `message`. The body comes in two shapes:
when the model load fails it is {status, message: "Model not loaded. Please try again
later.", data: {}}; when the blob upload, the inference or the record write fails it is
{status, message: "Prediction failed", error}, where `error` is the message of the error
and is left out when that message is undefined. -/
theorem C7_failure_envelope (cfg : Config) (w : World) (req : Request) (s : ServerState)
    (c : Call) (e : JSError) (h : Event.threw c e ∈ trace cfg w req s) :
    (c = .loadModel →
        responses (trace cfg w req s) =
          [(500, .json [("status", .str "fail"),
            ("message", .str "Model not loaded. Please try again later."),
            ("data", .emptyObject)])]) ∧
      (c ≠ .loadModel →
        c.name ∈ ["uploadFileToStorage", "predictUsingModel", "storeData"] ∧
        responses (trace cfg w req s) = [(500, predictionFailedBody e)] ∧
        (predictionFailedBody e).field "status" = some (.str "fail") ∧
        (predictionFailedBody e).field "message" = some (.str "Prediction failed") ∧
        (∀ msg, e.message = some msg →
          predictionFailedBody e = .json [("status", .str "fail"),
            ("message", .str "Prediction failed"), ("error", .str msg)]) ∧
        (e.message = none →
          predictionFailedBody e = .json [("status", .str "fail"),
            ("message", .str "Prediction failed")])) := by
  have hbody : (predictionFailedBody e).field "status" = some (.str "fail") ∧
      (predictionFailedBody e).field "message" = some (.str "Prediction failed") ∧
      (∀ msg, e.message = some msg →
        predictionFailedBody e = .json [("status", .str "fail"),
          ("message", .str "Prediction failed"), ("error", .str msg)]) ∧
      (e.message = none →
        predictionFailedBody e = .json [("status", .str "fail"),
          ("message", .str "Prediction failed")]) := by
    rcases e with ⟨_ | msg⟩ <;>
      simp [predictionFailedBody, jsonBody, JSError.messageJson, Body.field, List.lookup]
  obtain ⟨s', hs, hserve, ht⟩ := trace_served cfg w req s
  rw [ht] at h ⊢
  cases hs with
  | loadFailed e' hm hl =>
    simp at h
    obtain ⟨rfl, rfl⟩ := h
    simp [responses, modelNotLoadedBody, jsonBody]
  | _ =>
    cases ‹Loaded _ _ _ _ _› <;>
      simp [uploadLog, predictLog, uploadCall] at h <;>
      (try obtain ⟨rfl, rfl⟩ := h) <;>
      simp [responses, uploadLog, predictLog, uploadCall, Call.name, hbody] <;>
      exact hbody.2.2

/-- Witness of C7: the bucket refuses the upload of the sample request. -/
theorem C7_failure_envelope_witness :
    Event.threw (.uploadFileToStorage "scan.jpg" "images/scan.jpg")
        { message := some "Forbidden" } ∈
        trace sampleConfig bucketDownWorld sampleRequest .init ∧
      responses (trace sampleConfig bucketDownWorld sampleRequest .init) =
        [(500, predictionFailedBody { message := some "Forbidden" })] :=
  ⟨by decide,
    ((C7_failure_envelope sampleConfig bucketDownWorld sampleRequest .init
      (.uploadFileToStorage "scan.jpg" "images/scan.jpg") { message := some "Forbidden" }
      (by decide)).2 (by decide)).2.1⟩


/-- C8 fails as stated: two requests that arrive before any load has settled make two
calls to `tf.loadLayersModel`, and so do the startup callback and one request; each
caller gets the result of its own call, so one request can be refused while the other
proceeds. -/
theorem C8_counterexample :
    loadCalls (EventLoop.boot.run sampleConfig [.arrive "a", .arrive "b"]).srv.log = 2 ∧
      loadCalls (EventLoop.boot.run sampleConfig [.listen, .arrive "a"]).srv.log = 2 ∧
      (EventLoop.boot.run sampleConfig
        [.arrive "a", .arrive "b", .settle 0 (.error { message := some "Request failed" }),
          .settle 0 (.ok { ref := 1 })]).refused = ["a"] ∧
      (EventLoop.boot.run sampleConfig
        [.arrive "a", .arrive "b", .settle 0 (.error { message := some "Request failed" }),
          .settle 0 (.ok { ref := 1 })]).passed = ["b"] := by
  refine ⟨by decide, by decide, by decide, by decide⟩

/-- C8, amended: callers that arrive while no model handle exists each start a load of
their own. If `n` callers (requests, or the startup callback) arrive before any load
settles, `tf.loadLayersModel` is called `n` times and every one of them waits for its own
call. When the call of a waiting request settles, that request alone observes the result:
it proceeds (and the handle is set) if its call succeeded, and it is answered with the 500
(the handle left as it was) if its call failed. A request that arrives once a handle
exists proceeds without any call. -/
theorem C8_loads_per_caller (cfg : Config) (l : EventLoop) :
    (l.srv.model = none → ∀ ts : List Tick, (∀ t ∈ ts, (Tick.caller t).isSome) →
        loadCalls (l.run cfg ts).srv.log = loadCalls l.srv.log + ts.length ∧
        (l.run cfg ts).waiting = l.waiting ++ ts.filterMap Tick.caller ∧
        (l.run cfg ts).srv.model = none) ∧
      (∀ i id, l.waiting[i]? = some (.request id) →
        (∀ m, (l.step cfg (.settle i (.ok m))).passed = l.passed ++ [id] ∧
          (l.step cfg (.settle i (.ok m))).refused = l.refused ∧
          (l.step cfg (.settle i (.ok m))).srv.model = some m ∧
          (l.step cfg (.settle i (.ok m))).waiting = l.waiting.eraseIdx i) ∧
        (∀ e, (l.step cfg (.settle i (.error e))).refused = l.refused ++ [id] ∧
          (l.step cfg (.settle i (.error e))).passed = l.passed ∧
          (l.step cfg (.settle i (.error e))).srv.model = l.srv.model ∧
          (l.step cfg (.settle i (.error e))).waiting = l.waiting.eraseIdx i)) ∧
      (∀ m id, l.srv.model = some m →
        (l.step cfg (.arrive id)).passed = l.passed ++ [id] ∧
        (l.step cfg (.arrive id)).srv = l.srv ∧
        (l.step cfg (.arrive id)).waiting = l.waiting) := by
  refine ⟨fun hm ts hts => ?_, fun i id hi => ⟨fun m => ?_, fun e => ?_⟩, fun m id hm => ?_⟩
  · obtain ⟨h1, h2, h3, -, -⟩ := run_arrivals cfg ts l hm hts
    exact ⟨h1, h2, h3⟩
  · simp [EventLoop.step, hi, ensureModelLoadedResume, loadModelResume, ServerState.emit]
  · simp [EventLoop.step, hi, ensureModelLoadedResume, loadModelResume, ServerState.emit]
  · simp [EventLoop.step, hm]

/-- Witness of C8: three requests arrive at a fresh process before any load settles. -/
theorem C8_loads_per_caller_witness :
    EventLoop.boot.srv.model = none ∧
      loadCalls (EventLoop.boot.run sampleConfig
        [.arrive "a", .arrive "b", .arrive "c"]).srv.log = 3 :=
  ⟨rfl, ((C8_loads_per_caller sampleConfig EventLoop.boot).1 rfl
    [.arrive "a", .arrive "b", .arrive "c"] (by decide)).1⟩

/-- C9: `ensureModelLoaded` on the model handle, request after request. When a handle
exists it calls `next()` and changes nothing: no load, same handle. When no handle exists
it makes exactly one call to `tf.loadLayersModel`; the handle is set exactly when that
call succeeds, and then the request is passed on; when the call fails the handle is
still absent, the request is answered with the 500 "Model not loaded" and is not passed
on, and the request after it calls `tf.loadLayersModel` again. -/
theorem C9_ensure_model_loaded (cfg : Config) (w : World) (s : ServerState) :
    (∀ m, s.model = some m → ensureModelLoaded cfg w s = (.next, s)) ∧
      (s.model = none →
        loadCalls (ensureModelLoaded cfg w s).2.log = loadCalls s.log + 1 ∧
        (∀ m, (ensureModelLoaded cfg w s).2.model = some m ↔
          w.loadLayersModel cfg.modelUrl = .ok m) ∧
        (∀ m, w.loadLayersModel cfg.modelUrl = .ok m →
          (ensureModelLoaded cfg w s).1 = .next ∧
          responses (ensureModelLoaded cfg w s).2.log = responses s.log) ∧
        (∀ e, w.loadLayersModel cfg.modelUrl = .error e →
          (ensureModelLoaded cfg w s).1 = .ended ∧
          (ensureModelLoaded cfg w s).2.model = none ∧
          responses (ensureModelLoaded cfg w s).2.log =
            responses s.log ++ [(500, modelNotLoadedBody)] ∧
          (∀ w2, loadCalls (ensureModelLoaded cfg w2 (ensureModelLoaded cfg w s).2).2.log =
            loadCalls s.log + 2) ∧
          (∀ req w2 req2, (serve cfg w req s).model = none ∧
            responses (trace cfg w req s) = [(500, modelNotLoadedBody)] ∧
            Event.call (.tfLoadLayersModel cfg.modelUrl) ∈
              trace cfg w2 req2 (serve cfg w req s)))) := by
  refine ⟨fun m hm => by simp [ensureModelLoaded, hm], fun hm => ?_⟩
  rcases hl : w.loadLayersModel cfg.modelUrl with e | m
  · have hs : ensureModelLoaded cfg w s =
        (.ended,
          { model := none, blobs := s.blobs, docs := s.docs,
            log := s.log ++ [.call .loadModel, .call (.tfLoadLayersModel cfg.modelUrl),
              .threw .loadModel e, .respond 500 modelNotLoadedBody] }) := by
      simp [ensureModelLoaded, ensureModelLoadedResume, loadModelResume, loadModelBegin,
        ServerState.emit, hm, hl]
    have hserve : ∀ req, serve cfg w req s =
        { model := none, blobs := s.blobs, docs := s.docs,
          log := [.call .loadModel, .call (.tfLoadLayersModel cfg.modelUrl),
            .threw .loadModel e, .respond 500 modelNotLoadedBody] } := by
      intro req
      simp [serve, postPredict, ensureModelLoaded, ensureModelLoadedResume, loadModelResume,
        loadModelBegin, ServerState.emit, hm, hl]
    refine ⟨?_, ?_, ?_, ?_⟩
    · simp [hs, loadCalls_append, loadCalls]
    · simp [hs]
    · simp
    · intro e' he'
      cases he'
      refine ⟨by simp [hs], by simp [hs], by simp [hs, responses_append, responses], ?_, ?_⟩
      · intro w2
        rw [hs]
        rcases hl2 : w2.loadLayersModel cfg.modelUrl with e2 | m2 <;>
          simp [ensureModelLoaded, ensureModelLoadedResume, loadModelResume, loadModelBegin,
            ServerState.emit, hl2, loadCalls_append, loadCalls]
      · intro req w2 req2
        refine ⟨by simp [hserve], by simp [trace, hserve, responses], ?_⟩
        exact load_called_of_no_model cfg w2 req2 _ (by simp [hserve])
  · have hs : ensureModelLoaded cfg w s =
        (.next,
          { model := some m, blobs := s.blobs, docs := s.docs,
            log := s.log ++ [.call .loadModel, .call (.tfLoadLayersModel cfg.modelUrl),
              .returned .loadModel .unit] }) := by
      simp [ensureModelLoaded, ensureModelLoadedResume, loadModelResume, loadModelBegin,
        ServerState.emit, hm, hl]
    refine ⟨?_, ?_, ?_, ?_⟩
    · simp [hs, loadCalls_append, loadCalls]
    · intro m'
      simp [hs]
    · intro m' hm'
      simp [hs, responses_append, responses]
    · intro e' he'
      cases he'

/-- Witness of C9: a first request while the model cannot be fetched, at a fresh
process. -/
theorem C9_ensure_model_loaded_witness :
    ServerState.init.model = none ∧
      (ensureModelLoaded sampleConfig modelDownWorld .init).1 = .ended ∧
      (ensureModelLoaded sampleConfig modelDownWorld .init).2.model = none :=
  ⟨rfl,
    (((C9_ensure_model_loaded sampleConfig modelDownWorld .init).2 rfl).2.2.2
      { message := some "Request failed" } rfl).1,
    (((C9_ensure_model_loaded sampleConfig modelDownWorld .init).2 rfl).2.2.2
      { message := some "Request failed" } rfl).2.1⟩

/-- C10: the destination key and the image URL depend on the bucket name and on the
original file name only, not on the request id. Take two requests (any ids) whose files
are accepted and have the same original name, served one after the other from a state in
which a model handle is at hand, the upload and the inference answering for both. Then
each request calls `uploadFileToStorage` and `bucket.upload` with the destination
"images/<original file name>", and with no other destination; each hands `storeData` a
record under its own id, and both records carry the `imageUrl`
"https://storage.googleapis.com/<bucket name>/images/<original file name>"; and the second
upload overwrites the object written by the first: after the first request the bucket
holds the first buffer under that key, after the second it holds the second buffer under
the same key and nothing else has changed. -/
theorem C10_destination_by_name (cfg : Config) (w1 w2 : World) (req1 req2 : Request)
    (s : ServerState) (f1 f2 : UploadedFile) (m : LayersModel) (sc1 sc2 : JSNum)
    (ha1 : Accepted req1 f1) (ha2 : Accepted req2 f2)
    (hn : f1.originalname = f2.originalname)
    (hr : Ready cfg w1 s m)
    (hu1 : Uploads cfg w1 f1) (hs1 : Scores cfg w1 f1 m sc1)
    (hu2 : Uploads cfg w2 f2) (hs2 : Scores cfg w2 f2 m sc2) :
    Event.call (.uploadFileToStorage f1.originalname ("images/" ++ f1.originalname)) ∈
        trace cfg w1 req1 s ∧
      Event.call (.uploadFileToStorage f1.originalname ("images/" ++ f1.originalname)) ∈
        trace cfg w2 req2 (serve cfg w1 req1 s) ∧
      Event.call (.bucketUpload (cfg.dirname ++ "/temp/" ++ f1.originalname)
        ("images/" ++ f1.originalname)) ∈ trace cfg w1 req1 s ∧
      Event.call (.bucketUpload (cfg.dirname ++ "/temp/" ++ f1.originalname)
        ("images/" ++ f1.originalname)) ∈ trace cfg w2 req2 (serve cfg w1 req1 s) ∧
      (∀ n d, Event.call (.uploadFileToStorage n d) ∈ trace cfg w1 req1 s →
        d = "images/" ++ f1.originalname) ∧
      (∀ n d, Event.call (.uploadFileToStorage n d) ∈ trace cfg w2 req2 (serve cfg w1 req1 s) →
        d = "images/" ++ f1.originalname) ∧
      (∃ d1 d2, Event.call (.storeData req1.id d1) ∈ trace cfg w1 req1 s ∧
        Event.call (.storeData req2.id d2) ∈ trace cfg w2 req2 (serve cfg w1 req1 s) ∧
        d1.id = req1.id ∧ d2.id = req2.id ∧
        d1.imageUrl =
          "https://storage.googleapis.com/" ++ cfg.bucketName ++ "/images/" ++
            f1.originalname ∧
        d2.imageUrl = d1.imageUrl) ∧
      (∀ i d, Event.call (.storeData i d) ∈ trace cfg w1 req1 s →
        d.imageUrl =
          "https://storage.googleapis.com/" ++ cfg.bucketName ++ "/images/" ++
            f1.originalname) ∧
      (∀ i d, Event.call (.storeData i d) ∈ trace cfg w2 req2 (serve cfg w1 req1 s) →
        d.imageUrl =
          "https://storage.googleapis.com/" ++ cfg.bucketName ++ "/images/" ++
            f1.originalname) ∧
      (serve cfg w1 req1 s).blobs = upsert ("images/" ++ f1.originalname) f1.buffer s.blobs ∧
      (serve cfg w2 req2 (serve cfg w1 req1 s)).blobs =
        upsert ("images/" ++ f1.originalname) f2.buffer s.blobs ∧
      (serve cfg w2 req2 (serve cfg w1 req1 s)).blobs.lookup ("images/" ++ f1.originalname) =
        some f2.buffer := by
  obtain ⟨a1, b1, c1, e1, m1⟩ := scored_run cfg w1 req1 s f1 m sc1 ha1 hr hu1 hs1
  obtain ⟨a2, b2, c2, e2, -⟩ :=
    scored_run cfg w2 req2 (serve cfg w1 req1 s) f2 m sc2 ha2 (Or.inl m1) hu2 hs2
  obtain ⟨p1, -, q1, -⟩ := file_facts cfg w1 req1 s f1 (image_of_accepted req1 f1 ha1)
  obtain ⟨p2, -, q2, -⟩ :=
    file_facts cfg w2 req2 (serve cfg w1 req1 s) f2 (image_of_accepted req2 f2 ha2)
  have hd : destination f2 = destination f1 := by simp [destination, hn]
  have hd1 : destination f1 = "images/" ++ f1.originalname := rfl
  have hurl : ("https://storage.googleapis.com/" ++ cfg.bucketName ++ "/" ++
        ("images/" ++ f1.originalname)) =
      "https://storage.googleapis.com/" ++ cfg.bucketName ++ "/images/" ++ f1.originalname :=
    publicUrl_destination cfg f1
  rw [← hn] at a2 b2 c2 e2
  rw [e1, upsert_upsert] at e2
  refine ⟨a1, a2, b1, b2, fun n d h => (p1 n d h).2, fun n d h => ?_, ⟨_, _, c1, c2, rfl,
    rfl, hurl, rfl⟩, fun i d h => ?_, fun i d h => ?_, e1, e2, ?_⟩
  · rw [(p2 n d h).2, hd, hd1]
  · rw [q1 i d h, publicUrl_destination]
  · rw [q2 i d h, hd, publicUrl_destination]
  · rw [e2, lookup_upsert]

/-- Witness of C10: the sample JPEG sent under the ids "abc123" and "xyz789", one request
after the other, to a fresh process. -/
theorem C10_destination_by_name_witness :
    (Accepted sampleRequest sampleJpeg ∧ Accepted otherRequest sampleJpeg ∧
        sampleJpeg.originalname = sampleJpeg.originalname ∧
        sampleRequest.id ≠ otherRequest.id ∧
        Ready sampleConfig (goodWorld threshold) .init { ref := 1 } ∧
        Uploads sampleConfig (goodWorld threshold) sampleJpeg ∧
        Scores sampleConfig (goodWorld threshold) sampleJpeg { ref := 1 } threshold ∧
        Uploads sampleConfig (goodWorld .nan) sampleJpeg ∧
        Scores sampleConfig (goodWorld .nan) sampleJpeg { ref := 1 } .nan) ∧
      Event.call (.uploadFileToStorage "scan.jpg" "images/scan.jpg") ∈
        trace sampleConfig (goodWorld threshold) sampleRequest .init ∧
      Event.call (.uploadFileToStorage "scan.jpg" "images/scan.jpg") ∈
        trace sampleConfig (goodWorld .nan) otherRequest
          (serve sampleConfig (goodWorld threshold) sampleRequest .init) ∧
      (serve sampleConfig (goodWorld .nan) otherRequest
          (serve sampleConfig (goodWorld threshold) sampleRequest .init)).blobs.lookup
        "images/scan.jpg" = some [255, 216] :=
  ⟨⟨rfl, rfl, rfl, by decide, Or.inr ⟨rfl, rfl⟩, ⟨rfl, rfl, rfl⟩, ⟨_, _, rfl, rfl, rfl⟩,
      ⟨rfl, rfl, rfl⟩, ⟨_, _, rfl, rfl, rfl⟩⟩,
    (C10_destination_by_name sampleConfig (goodWorld threshold) (goodWorld .nan)
      sampleRequest otherRequest .init sampleJpeg sampleJpeg { ref := 1 } threshold .nan
      rfl rfl rfl (Or.inr ⟨rfl, rfl⟩) ⟨rfl, rfl, rfl⟩ ⟨_, _, rfl, rfl, rfl⟩
      ⟨rfl, rfl, rfl⟩ ⟨_, _, rfl, rfl, rfl⟩).1,
    (C10_destination_by_name sampleConfig (goodWorld threshold) (goodWorld .nan)
      sampleRequest otherRequest .init sampleJpeg sampleJpeg { ref := 1 } threshold .nan
      rfl rfl rfl (Or.inr ⟨rfl, rfl⟩) ⟨rfl, rfl, rfl⟩ ⟨_, _, rfl, rfl, rfl⟩
      ⟨rfl, rfl, rfl⟩ ⟨_, _, rfl, rfl, rfl⟩).2.1,
    (C10_destination_by_name sampleConfig (goodWorld threshold) (goodWorld .nan)
      sampleRequest otherRequest .init sampleJpeg sampleJpeg { ref := 1 } threshold .nan
      rfl rfl rfl (Or.inr ⟨rfl, rfl⟩) ⟨rfl, rfl, rfl⟩ ⟨_, _, rfl, rfl, rfl⟩
      ⟨rfl, rfl, rfl⟩ ⟨_, _, rfl, rfl, rfl⟩).2.2.2.2.2.2.2.2.2.2.2⟩

end ExpresMira
